import Mathlib

/-!
Verification of the CDA2FHIR transformation pipeline (FHIR-Aggregator/CDA2FHIR).

This file gives a shallow embedding, in Lean, of the parts of
`cda2fhir/transformer.py`, `cda2fhir/utils.py` and `cda2fhir/cda2fhir.py`
needed to settle the frozen claims, and proves or refutes each claim.

Modelling conventions:
* Python strings are Lean `String`s; `None` is `Option.none`.
* Python truthiness on optional strings / ints is made explicit
  (`pyTruthyS`, `pyTruthyI`).
* `uuid3` / `uuid5` are modelled as an abstract, explicitly passed algebra
  (`UuidAlg`): they are deterministic functions of their arguments, which is
  exactly what the RFC 4122 algorithms are.  All minting code is translated
  from the source; nothing about the hash itself is assumed.
* In-place mutation of `Identifier` objects (which the source performs in
  `fhir_group`) is modelled by returning the updated identifier and threading
  it through the caller, exactly following the source's data flow.
* A Python function that can raise is modelled with `Except String`.
-/

namespace CDA2FHIR

/-- Python truthiness of an optional string: `None` and `""` are falsy. -/
def pyTruthyS : Option String → Bool
  | none => false
  | some s => s ≠ ""

/-- Python truthiness of an optional int: `None` and `0` are falsy. -/
def pyTruthyI : Option Int → Bool
  | none => false
  | some v => v ≠ 0

/-- transformer.py line 36: `CDA_SITE = 'cda.readthedocs.io'`. -/
def CDA_SITE : String := "cda.readthedocs.io"

/-! ### Kernel-friendly string primitives

Python's string methods are modelled over `List Char` so that every
definition evaluates inside the kernel (`decide`/`rfl` on concrete
witnesses). -/

/-- Python's `str.strip()` whitespace set (ASCII). -/
def pyWhitespace (c : Char) : Bool :=
  c = ' ' || c = '\t' || c = '\n' || c = '\r' || c = '\x0b' || c = '\x0c'

/-- `s.strip()`. -/
def pyStrip (s : String) : String :=
  ⟨((s.toList.dropWhile pyWhitespace).reverse.dropWhile pyWhitespace).reverse⟩

/-- `s.lower()`. -/
def pyLower (s : String) : String :=
  ⟨s.toList.map Char.toLower⟩

/-- `s.upper()`. -/
def pyUpper (s : String) : String :=
  ⟨s.toList.map Char.toUpper⟩

/-- `c in s` for a single character. -/
def pyContainsChar (s : String) (c : Char) : Bool :=
  s.toList.contains c

/-- `needle in haystack` — Python's substring test. -/
def pyInStr (needle haystack : String) : Bool :=
  haystack.toList.tails.any (fun t => needle.toList.isPrefixOf t)

/-- `s.startswith(p)`. -/
def pyStartsWith (s p : String) : Bool :=
  p.toList.isPrefixOf s.toList

/-- `s.split(sep)` for a one-character separator: splits at every
occurrence, keeping empty parts. -/
def pySplitOnChar (s : String) (c : Char) : List String :=
  (s.toList.splitOn c).map (fun l => ⟨l⟩)

/-- `sep.join(parts)`. -/
def pyJoin (sep : String) : List String → String
  | [] => ""
  | [x] => x
  | x :: xs => x ++ sep ++ pyJoin sep xs

/-- Fuelled scanner for occurrence removal; the fuel bounds the number of
steps so that the recursion is structural (and so kernel-reducible).  With
fuel at least the input length and a non-empty pattern, the fuel never runs
out. -/
def removeSubstrAux (pat : List Char) : Nat → List Char → List Char
  | 0, l => l
  | _ + 1, [] => []
  | fuel + 1, c :: cs =>
    if pat ≠ [] ∧ pat.isPrefixOf (c :: cs) then
      removeSubstrAux pat fuel (List.drop pat.length (c :: cs))
    else c :: removeSubstrAux pat fuel cs

/-- `s.replace(pat, "")` for a non-empty pattern: removes every
non-overlapping occurrence, scanning left to right. -/
def removeSubstr (pat : List Char) (l : List Char) : List Char :=
  removeSubstrAux pat l.length l

/-- The DNS namespace UUID (`uuid.NAMESPACE_DNS` in Python). -/
def NAMESPACE_DNS : String := "6ba7b810-9dad-11d1-80b4-00c04fd430c8"

/-- The deterministic name-based UUID algorithms of RFC 4122, kept abstract:
`uuid3 namespace name` and `uuid5 namespace name` are pure functions of their
arguments.  Quantifying over this algebra expresses that any two runs use the
same fixed algorithm. -/
structure UuidAlg where
  uuid3 : String → String → String
  uuid5 : String → String → String

/-- A FHIR `Identifier` (system, value, use), as constructed by the source. -/
structure Identifier where
  system : String
  value : String
  use : String
deriving DecidableEq, Repr

instance : Inhabited Identifier := ⟨⟨"", "", ""⟩⟩

/-- The state of `Transformer.__init__` (transformer.py lines 79-87) that is
relevant to minting: the project id and the namespace
`uuid3(NAMESPACE_DNS, CDA_SITE)`.  The SQLAlchemy session is retained by the
Python object but never read by the minting code; it is modelled by a bare
token so that independence from it can be stated. -/
structure Transformer where
  alg : UuidAlg
  project_id : String
  ns : String

/-- `Transformer.__init__(self, session)` (transformer.py lines 80-87):
sets `project_id = 'fhir_aggregator-cda'` and
`namespace = uuid3(NAMESPACE_DNS, CDA_SITE)` (field `ns` here, since
`namespace` is a Lean keyword).  The `session` argument is stored but unused
by minting, hence ignored here. -/
def Transformer.init (alg : UuidAlg) (_session : Nat) : Transformer :=
  { alg := alg
    project_id := "fhir_aggregator-cda"
    ns := alg.uuid3 NAMESPACE_DNS CDA_SITE }

/-- Every subclass transformer (`PatientTransformer`, `ConditionTransformer`,
`SpecimenTransformer`, `DocumentReferenceTransformer`,
`MedicationAdministrationTransformer`, `MutationTransformer`) overrides
`project_id = 'CDA'` and re-sets the same namespace. -/
def Transformer.initCDA (alg : UuidAlg) (_session : Nat) : Transformer :=
  { alg := alg
    project_id := "CDA"
    ns := alg.uuid3 NAMESPACE_DNS CDA_SITE }

/-- `Transformer._mint_id` (transformer.py lines 142-144):
`str(uuid5(self.namespace, f"{self.project_id}/{identifier_string}"))`. -/
def Transformer.mint_id_str (t : Transformer) (identifier_string : String) : String :=
  t.alg.uuid5 t.ns (t.project_id ++ "/" ++ identifier_string)

/-- `Transformer.mint_id` (transformer.py lines 133-140) on the `Identifier`
branch: builds `f"{resource_type}/{identifier.system}|{identifier.value}"`
and delegates to `_mint_id`. -/
def Transformer.mint_id (t : Transformer) (identifier : Identifier)
    (resource_type : String) : String :=
  t.mint_id_str (resource_type ++ "/" ++ identifier.system ++ "|" ++ identifier.value)

/-! ## The tokenization regex

Several transformers validate free text with
`re.match(r"^[^\s]+(\s[^\s]+)*$", s)`: one or more non-whitespace tokens
separated by single whitespace characters.  In Python, `$` also matches just
before one trailing newline, which `pyRegexMatch` reproduces. -/

/-- Matcher for the anchored pattern `[^\s]+(\s[^\s]+)*` over a character
list.  `needStart = true` means the next character must begin a token. -/
def tokAux : Bool → List Char → Bool
  | needStart, [] => !needStart
  | needStart, c :: cs =>
    if pyWhitespace c then
      if needStart then false else tokAux true cs
    else tokAux false cs

/-- `re.match(r"^[^\s]+(\s[^\s]+)*$", s) is not None`, including Python's
rule that `$` may match before a single trailing `'\n'`. -/
def pyRegexMatch (s : String) : Bool :=
  tokAux true s.toList
    || (s.toList.getLast? = some '\n' && tokAux true s.toList.dropLast)

/-! ## Demographic mappers (PatientTransformer) -/

/-- A FHIR `Extension` as used by the source: a url plus a single payload
value (`valueCode`, `valueString` or `valueReference.reference`; which key is
used is fixed per construction site and does not affect any claim). -/
structure Extension where
  url : String
  value : String
deriving DecidableEq, Repr

/-- `sex.strip() if sex else sex` (transformer.py line 337): Python only
strips truthy strings, so `None` and `""` pass through unchanged. -/
def pyStripIfTruthy : Option String → Option String
  | none => none
  | some s => if s = "" then some "" else some (pyStrip s)

/-- url of the birth-sex extension. -/
def BIRTHSEX_URL : String :=
  "http://hl7.org/fhir/us/core/StructureDefinition/us-core-birthsex"

/-- `PatientTransformer.map_gender` (transformer.py lines 334-351): strips
the input, then tests it against three enumerated lists; any other value
falls off the end of the `if/elif` chain and Python returns `None`. -/
def map_gender (sex : Option String) : Option Extension :=
  match pyStripIfTruthy sex with
  | none => none
  | some s =>
    if s ∈ ["male", "Male", "M"] then some ⟨BIRTHSEX_URL, "M"⟩
    else if s ∈ ["female", "Female", "F"] then some ⟨BIRTHSEX_URL, "F"⟩
    else if s ∈ ["Unspecified", "Not specified in data", "O", "U", "0000"] then
      some ⟨BIRTHSEX_URL, "UNK"⟩
    else none

/-- url of the ethnicity extension. -/
def ETHNICITY_URL : String :=
  "http://hl7.org/fhir/us/core/StructureDefinition/us-core-ethnicity"

/-- `PatientTransformer.map_ethnicity` (transformer.py lines 353-369):
enumerated tables, an explicit 'not reported' list, then `elif ethnicity:`
maps any other truthy value to 'unknown'; `None`/`""` yield `None`. -/
def map_ethnicity (ethnicity : Option String) : Option Extension :=
  if ethnicity.getD "" ∈ ["not hispanic or latino", "Not Hispanic or Latino",
      "Not Hispanic or", "Non-Hispanic/Non", "Non-Hispanic [1]", "Non-Hispanic",
      "Non-Hispanic [9]", "Not Hispanic Lat"] ∧ ethnicity ≠ none then
    some ⟨ETHNICITY_URL, "not hispanic or latino"⟩
  else if ethnicity.getD "" ∈ ["hispanic or latino", "Hispanic or Latino",
      "Hispanic/Latino", "Hispanic Latino"] ∧ ethnicity ≠ none then
    some ⟨ETHNICITY_URL, "hispanic or latino"⟩
  else if ethnicity.getD "" ∈ ["anonymous", "REMOVED", "Patient Refused",
      "Patient Declined", "anonymized"] ∧ ethnicity ≠ none then
    some ⟨ETHNICITY_URL, "not reported"⟩
  else if pyTruthyS ethnicity then some ⟨ETHNICITY_URL, "unknown"⟩
  else none

/-- url of the race extension. -/
def RACE_URL : String :=
  "http://hl7.org/fhir/us/core/StructureDefinition/us-core-race"

/-- `PatientTransformer.map_race` (transformer.py lines 371-390): enumerated
tables, then `elif race:` maps any other truthy value to 'not reported';
`None`/`""` yield `None`. -/
def map_race (race : Option String) : Option Extension :=
  if race.getD "" ∈ ["white", "White"] ∧ race ≠ none then
    some ⟨RACE_URL, "White"⟩
  else if race.getD "" ∈ ["black or african american", "Black or African American"]
      ∧ race ≠ none then
    some ⟨RACE_URL, "Black or African American"⟩
  else if race.getD "" ∈ ["asian", "Asian"] ∧ race ≠ none then
    some ⟨RACE_URL, "Asian"⟩
  else if race.getD "" ∈ ["native hawaiian or other pacific islander",
      "Native Hawaiian or other Pacific Islander",
      "Native Hawaiian or Other Pacific Islander"] ∧ race ≠ none then
    some ⟨RACE_URL, "Native Hawaiian or Other Pacific Islander"⟩
  else if race.getD "" ∈ ["american indian or alaska native",
      "American Indian or Alaska Native"] ∧ race ≠ none then
    some ⟨RACE_URL, "American Indian or Alaska Native"⟩
  else if pyTruthyS race then some ⟨RACE_URL, "not reported"⟩
  else none

/-! ## CDA subject, patient identifiers and the part-of-study extension -/

/-- One row of the `subject_identifier` relation (system, field name, value),
as read by `patient_identifier`. -/
structure CDASubjectIdentifierRel where
  system : String
  field_name : String
  value : String
deriving DecidableEq, Repr

/-- The fields of `CDASubject` (cdamodels.py) read by the embedded code. -/
structure CDASubject where
  id : String
  integer_id_alias : Int
  subject_project_relation : List String
  subject_identifier : List CDASubjectIdentifierRel
deriving DecidableEq, Repr

/-- Data-commons system prefixes set in `Transformer.__init__`
(transformer.py lines 84-87). -/
def SYSTEM_GDC : String := "https://gdc.cancer.gov/"

/-- PDC system prefix. -/
def SYSTEM_PDC : String := "https://proteomic.datacommons.cancer.gov/pdc/"

/-- IDC system prefix. -/
def SYSTEM_IDC : String := "https://portal.imaging.datacommons.cancer.gov/"

/-- ICDC system prefix. -/
def SYSTEM_ICDC : String := "https://caninecommons.cancer.gov/"

/-- `field_name.split(".")[1].strip()` applied when the field name contains a
dot (transformer.py lines 297-298 etc.). -/
def normalize_field_name (field_name : String) : String :=
  if pyContainsChar field_name '.' then pyStrip ((pySplitOnChar field_name '.').getD 1 "")
  else field_name

/-- The identifiers contributed by one `subject_identifier` row: four
independent `if` tests on the system tag (transformer.py lines 296-318). -/
def identifier_entries (rel : CDASubjectIdentifierRel) : List Identifier :=
  (if rel.system = "GDC" then
    [⟨SYSTEM_GDC ++ normalize_field_name rel.field_name, rel.value, "secondary"⟩]
   else [])
  ++ (if rel.system = "PDC" then
    [⟨SYSTEM_PDC ++ normalize_field_name rel.field_name, rel.value, "secondary"⟩]
   else [])
  ++ (if rel.system = "IDC" then
    [⟨SYSTEM_IDC ++ normalize_field_name rel.field_name, rel.value, "secondary"⟩]
   else [])
  ++ (if rel.system = "ICDC" then
    [⟨SYSTEM_ICDC ++ normalize_field_name rel.field_name, rel.value, "secondary"⟩]
   else [])

/-- `PatientTransformer.patient_identifier` (transformer.py lines 288-328):
per-row data-commons identifiers, then always the `subject_id` identifier
and the `subject_alias` identifier. -/
def patient_identifier (subject : CDASubject) : List Identifier :=
  (subject.subject_identifier.map identifier_entries).flatten
  ++ [⟨"https://" ++ CDA_SITE ++ "/subject_id", subject.id, "official"⟩,
      ⟨"https://" ++ CDA_SITE ++ "/subject_alias", toString subject.integer_id_alias,
        "secondary"⟩]

/-- `PatientTransformer.patient_mintid` (transformer.py lines 330-332). -/
def patient_mintid (t : Transformer) (ident : Identifier) : String :=
  t.mint_id ident "Patient"

/-- url of the part-of-study extension. -/
def PART_OF_STUDY_URL : String :=
  "http://fhir-aggregator.org/fhir/StructureDefinition/part-of-study"

/-- `Transformer.get_part_of_study_extension` (transformer.py lines 184-228):
appends one extension per project relation (guarded by the truthiness of the
minted ResearchStudy id); with no relations, falls back on the prefix of the
subject id before the first `'.'`.  The Python function mutates the list it
is given; here the extended list is returned. -/
def Transformer.get_part_of_study_extension (t : Transformer) (subject : CDASubject)
    (extensions : List Extension) : List Extension :=
  if subject.subject_project_relation ≠ [] then
    extensions ++ subject.subject_project_relation.filterMap (fun ap =>
      let research_study_id := t.mint_id
        ⟨"https://" ++ CDA_SITE ++ "/associated_project", ap, "official"⟩
        "ResearchStudy"
      if research_study_id ≠ "" then
        some ⟨PART_OF_STUDY_URL, "ResearchStudy/" ++ research_study_id⟩
      else none)
  else if pyContainsChar subject.id '.' then
    let project_value := (pySplitOnChar subject.id '.').headD ""
    if project_value ≠ "" then
      let research_study_id := t.mint_id
        ⟨"https://" ++ CDA_SITE ++ "/associated_project", project_value, "official"⟩
        "ResearchStudy"
      if research_study_id ≠ "" then
        extensions ++ [⟨PART_OF_STUDY_URL, "ResearchStudy/" ++ research_study_id⟩]
      else extensions
    else extensions
  else extensions

/-! ## Diagnosis → Condition (ConditionTransformer) -/

/-- The fields of `CDADiagnosis` (cdamodels.py lines 126-141) read by the
embedded code. -/
structure CDADiagnosis where
  id : String
  primary_diagnosis : Option String
  age_at_diagnosis : Option Int
  pathologic_stage : Option String
  pathologic_stage_t : Option String
  pathologic_stage_n : Option String
  pathologic_stage_m : Option String
  grade : Option String
  clinical_stage : Option String
  clinical_stage_t : Option String
  clinical_stage_n : Option String
  clinical_stage_m : Option String
deriving DecidableEq, Repr

/-- A coding triple (system, code, display). -/
structure Coding where
  system : String
  code : String
  display : String
deriving DecidableEq, Repr

/-- The SNOMED codes used by `fetch_stage_info`, one per stage field. -/
def pathologicStageCode : Coding :=
  ⟨"http://snomed.info/sct", "1222593009",
   "American Joint Committee on Cancer pathological stage group allowable value"⟩

/-- pathologic T code. -/
def pathologicTCode : Coding :=
  ⟨"http://snomed.info/sct", "1222589003",
   "American Joint Committee on Cancer pathological T category allowable value"⟩

/-- pathologic N code. -/
def pathologicNCode : Coding :=
  ⟨"http://snomed.info/sct", "1222590007",
   "American Joint Committee on Cancer pathological N category allowable value"⟩

/-- pathologic M code. -/
def pathologicMCode : Coding :=
  ⟨"http://snomed.info/sct", "1222591006",
   "American Joint Committee on Cancer pathological M category allowable value"⟩

/-- grade code. -/
def gradeCode : Coding :=
  ⟨"http://snomed.info/sct", "1222599008",
   "American Joint Committee on Cancer pathological grade allowable value"⟩

/-- clinical stage group code. -/
def clinicalStageCode : Coding :=
  ⟨"http://snomed.info/sct", "1222592004",
   "American Joint Committee on Cancer clinical stage group allowable value"⟩

/-- clinical T code. -/
def clinicalTCode : Coding :=
  ⟨"http://snomed.info/sct", "1222585009",
   "American Joint Committee on Cancer clinical T category allowable value"⟩

/-- clinical N code. -/
def clinicalNCode : Coding :=
  ⟨"http://snomed.info/sct", "1222588006",
   "American Joint Committee on Cancer clinical N category allowable value"⟩

/-- clinical M code. -/
def clinicalMCode : Coding :=
  ⟨"http://snomed.info/sct", "1222587001",
   "American Joint Committee on Cancer clinical M category allowable value"⟩

/-- `ConditionTransformer.fetch_stage_info` (transformer.py lines 738-812):
an `if/elif` chain over the stage fields in a fixed order; the first truthy
field determines both the code and the display; a falsy sweep returns
`(None, None)`. -/
def fetch_stage_info (diagnosis : CDADiagnosis) : Option Coding × Option String :=
  if pyTruthyS diagnosis.pathologic_stage then
    (some pathologicStageCode, diagnosis.pathologic_stage)
  else if pyTruthyS diagnosis.pathologic_stage_t then
    (some pathologicTCode, diagnosis.pathologic_stage_t)
  else if pyTruthyS diagnosis.pathologic_stage_n then
    (some pathologicNCode, diagnosis.pathologic_stage_n)
  else if pyTruthyS diagnosis.pathologic_stage_m then
    (some pathologicMCode, diagnosis.pathologic_stage_m)
  else if pyTruthyS diagnosis.grade then
    (some gradeCode, diagnosis.grade)
  else if pyTruthyS diagnosis.clinical_stage then
    (some clinicalStageCode, diagnosis.clinical_stage)
  else if pyTruthyS diagnosis.clinical_stage_t then
    (some clinicalTCode, diagnosis.clinical_stage_t)
  else if pyTruthyS diagnosis.clinical_stage_n then
    (some clinicalNCode, diagnosis.clinical_stage_n)
  else if pyTruthyS diagnosis.clinical_stage_m then
    (some clinicalMCode, diagnosis.clinical_stage_m)
  else (none, none)

/-- Spec-side definition (from the claim's words, for comparison with
`fetch_stage_info`): the stage fields listed in the claimed priority order,
paired with their codes. -/
def stageFieldsInPriorityOrder (d : CDADiagnosis) : List (Option String × Coding) :=
  [(d.pathologic_stage, pathologicStageCode),
   (d.pathologic_stage_t, pathologicTCode),
   (d.pathologic_stage_n, pathologicNCode),
   (d.pathologic_stage_m, pathologicMCode),
   (d.grade, gradeCode),
   (d.clinical_stage, clinicalStageCode),
   (d.clinical_stage_t, clinicalTCode),
   (d.clinical_stage_n, clinicalNCode),
   (d.clinical_stage_m, clinicalMCode)]

/-- Spec-side definition: the first populated (truthy) field in the priority
order, with its code; later populated fields are ignored. -/
def firstPopulatedStage (d : CDADiagnosis) : Option (Coding × String) :=
  (stageFieldsInPriorityOrder d).findSome? (fun p =>
    if pyTruthyS p.1 then some (p.2, p.1.getD "") else none)

/-- The `if/elif` cascade of `fetch_stage_info`, abstracted over the ordered
field list (used to bridge the source definition and the spec-side
`firstPopulatedStage`). -/
def stageFromList : List (Option String × Coding) → Option Coding × Option String
  | [] => (none, none)
  | (o, c) :: rest => if pyTruthyS o then (some c, o) else stageFromList rest

/-- The fields of a FHIR `Patient` read by the condition code: its minted id
and its extension list. -/
structure Patient where
  id : String
  extension : List Extension
deriving DecidableEq, Repr

/-- The stage-assessment Observation built by
`ConditionTransformer.condition_observation` (transformer.py lines 814-867):
id minted from the diagnosis id, `code` = the stage coding,
`valueCodeableConcept` coding from the stage code and display, subject and
focus references, and the patient's part-of-study extension if present. -/
structure StageObservation where
  id : String
  identifier : List Identifier
  status : String
  code : Coding
  valueCoding : Coding
  subject : String
  focus : String
  extension : Option Extension
deriving DecidableEq, Repr

/-- `ConditionTransformer.condition_observation`. -/
def condition_observation (t : Transformer) (diagnosis : CDADiagnosis)
    (_stage_code : Coding) (_stage_display : Option String) (patient : Patient)
    (_condition_id : String) : StageObservation :=
  let observation_identifier : Identifier :=
    ⟨"https://" ++ CDA_SITE ++ "/diagnosis", diagnosis.id, "official"⟩
  let observation_id := t.mint_id observation_identifier "Observation"
  let part_of_extension := patient.extension.find? (fun e => e.url = PART_OF_STUDY_URL)
  { id := observation_id
    identifier := [observation_identifier]
    status := "final"
    code := _stage_code
    valueCoding := ⟨_stage_code.system, _stage_code.code, _stage_display.getD ""⟩
    subject := "Patient/" ++ patient.id
    focus := "Condition/" ++ _condition_id
    extension := part_of_extension }

/-- One entry of `Condition.stage`: the summary coding and the assessment
reference `Observation/{id}`. -/
structure ConditionStage where
  summary : Coding
  assessment : String
deriving DecidableEq, Repr

/-- The fields of the emitted FHIR `Condition` needed by the claims. -/
structure Condition where
  id : String
  identifier : List Identifier
  subject : String
  code : Coding
  onsetString : Option String
  stage : List ConditionStage
  extension : Option Extension
deriving DecidableEq, Repr

/-- `ConditionTransformer.condition_identifier` (transformer.py 911-916). -/
def condition_identifier (cda_diagnosis : CDADiagnosis) : List Identifier :=
  [⟨"https://" ++ CDA_SITE ++ "/diagnosis", cda_diagnosis.id, "official"⟩]

/-- `ConditionTransformer.condition` (transformer.py lines 629-735): guard on
`primary_diagnosis`, stage derivation via `fetch_stage_info`, companion stage
observation, code/display split on the first `':'`, cholangiocarcinoma
special case, and assembly of the Condition.  Returns `none` where the
Python function returns `None`. -/
def condition (t : Transformer) (diagnosis : CDADiagnosis) (patient : Patient) :
    Option Condition :=
  match diagnosis.primary_diagnosis with
  | none => none
  | some pd =>
    if !pyRegexMatch pd then none
    else
      let _condition_identifier := condition_identifier diagnosis
      let condition_id := t.mint_id (_condition_identifier.headD default) "Condition"
      let si := fetch_stage_info diagnosis
      let _stage_code := si.1
      let _stage_display := si.2
      let stage_summary : Option Coding := _stage_code.map (fun sc =>
        ⟨sc.system, sc.code, _stage_display.getD ""⟩)
      let onset : Option String :=
        if pyTruthyI diagnosis.age_at_diagnosis then
          diagnosis.age_at_diagnosis.map toString
        else none
      let _condition_observation : Option StageObservation :=
        _stage_code.map (fun sc =>
          condition_observation t diagnosis sc _stage_display patient condition_id)
      let stage : List ConditionStage :=
        match stage_summary, _condition_observation with
        | some ss, some ob => [⟨ss, "Observation/" ++ ob.id⟩]
        | _, _ => []
      let cd : String × String :=
        if pyContainsChar pd ':' then
          (pyStrip ((pySplitOnChar pd ':').headD ""),
           pyStrip (pyJoin ":" ((pySplitOnChar pd ':').tail)))
        else (pd, pd)
      let cd : String × String :=
        if pyInStr "cholangiocarcinoma" (pyLower pd) then
          ("70179006", "Cholangiocarcinoma")
        else cd
      let system :=
        if cd.1 = "70179006" then "http://snomed.info/sct"
        else "https://" ++ CDA_SITE ++ "/"
      let part_of_extension := patient.extension.find? (fun e => e.url = PART_OF_STUDY_URL)
      some
        { id := condition_id
          identifier := _condition_identifier
          subject := "Patient/" ++ patient.id
          code := ⟨system, cd.1, cd.2⟩
          onsetString := onset
          stage := stage
          extension := part_of_extension }

/-- The caller's decision to emit the companion stage Observation
(cda2fhir.py lines 649-658): an Observation is appended only when the
emitted Condition carries a stage entry whose summary display is truthy. -/
def stage_observation_emitted (c : Condition) : Bool :=
  match c.stage with
  | [] => false
  | st :: _ => st.summary.display ≠ ""

/-! ## Specimen → BodyStructure (SpecimenTransformer) -/

/-- The fields of `CDASpecimen` (cdamodels.py lines 194-211) read by the
embedded code. -/
structure CDASpecimen where
  id : String
  anatomical_site : Option String
  derived_from_subject : Option String
deriving DecidableEq, Repr

/-- `SpecimenTransformer.specimen_identifier` (transformer.py 1152-1157). -/
def specimen_identifier (cda_specimen : CDASpecimen) : List Identifier :=
  [⟨"https://" ++ CDA_SITE ++ "/specimen", cda_specimen.id, "official"⟩]

/-- `SpecimenTransformer.specimen_mintid` (transformer.py 1159-1161). -/
def specimen_mintid (t : Transformer) (ident : Identifier) : String :=
  t.mint_id ident "Specimen"

/-- A minted FHIR Specimen as consumed by `specimen_body_structure`: only its
extension list is read there. -/
structure SpecimenRes where
  id : String
  extension : List Extension
deriving DecidableEq, Repr

/-- An entry of `BodyStructure.includedStructure`: one coding. -/
structure IncludedStructure where
  code : String
  display : String
deriving DecidableEq, Repr

/-- The fields of the emitted `BodyStructure` needed by the claims. -/
structure BodyStructure where
  id : String
  identifier : List Identifier
  includedStructure : List IncludedStructure
  patient : String
  extension : List Extension
deriving DecidableEq, Repr

/-- `SpecimenTransformer.specimen_body_structure` (transformer.py lines
1091-1150).  `Except.ok none` models Python's implicit `return None` when the
guard fails; `.error` models the `ValueError` raised by the two-target unpack
`code, display = site.split(":")` when the site contains more than one
colon. -/
def specimen_body_structure (t : Transformer) (cda_specimen : CDASpecimen)
    (patient : Patient) (fhir_specimen : Option SpecimenRes)
    (part_of_study_extensions : List Extension) :
    Except String (Option BodyStructure) :=
  match cda_specimen.anatomical_site with
  | none => .ok none
  | some site =>
    if site = "" then .ok none
    else if pyInStr "Not specified in data" site then .ok none
    else if !pyRegexMatch site then .ok none
    else
      let structures : Except String (List IncludedStructure) :=
        if pyContainsChar site ':' then
          let parts := pySplitOnChar site ':'
          if parts.length ≠ 2 then .error "ValueError: unpack"
          else .ok [⟨pyStrip (parts.headD ""), pyStrip (parts.getD 1 "")⟩]
        else if pyContainsChar site ',' ∧ ¬pyContainsChar site ':'
            ∧ ¬pyInStr "NOS" site ∧ ¬pyInStr "Nos" site then
          .ok ((pySplitOnChar site ',').map (fun b => ⟨pyStrip b, pyStrip b⟩))
        else .ok [⟨site, site⟩]
      match structures with
      | .error e => .error e
      | .ok included =>
        let bd_identifier : Identifier := ⟨"https://" ++ CDA_SITE, site, "official"⟩
        let body_structure : BodyStructure :=
          { id := t.mint_id bd_identifier "BodyStructure"
            identifier := [bd_identifier]
            includedStructure := included
            patient := "Patient/" ++ patient.id
            extension :=
              match fhir_specimen with
              | some fs => if fs.extension ≠ [] then fs.extension else []
              | none => if part_of_study_extensions ≠ [] then part_of_study_extensions
                        else [] }
        .ok (some body_structure)

/-! ## File → DocumentReference / Group (DocumentReferenceTransformer) -/

/-- The fields of `CDAFile` (cdamodels.py lines 265-286) read by the embedded
code. -/
structure CDAFile where
  id : String
  integer_id_alias : Int
  dbgap_accession_number : String
deriving DecidableEq, Repr

/-- `Transformer.is_valid_uuid` (transformer.py lines 123-131):
`uuid.UUID(value, version=5)` parses the string by removing the `urn:` and
`uuid:` markers, stripping enclosing braces and dashes, and requiring exactly
32 hexadecimal digits (the `version=5` argument force-sets the version bits
and validates nothing). -/
def is_valid_uuid (value : Option String) : Bool :=
  match value with
  | none => false
  | some v =>
    let chars := removeSubstr "uuid:".toList (removeSubstr "urn:".toList v.toList)
    let chars := chars.dropWhile (fun c => c = '\x7b' || c = '\x7d')
    let chars := (chars.reverse.dropWhile (fun c => c = '\x7b' || c = '\x7d')).reverse
    let chars := chars.filter (fun c => c ≠ '-')
    chars.length = 32 && chars.all (fun c =>
      c.isDigit || ('a' ≤ c ∧ c ≤ 'f') || ('A' ≤ c ∧ c ≤ 'F'))

/-- A FHIR Group as emitted by `fhir_group`: minted id, the (mutated)
identifier, the member references and the extensions. -/
structure Group where
  id : String
  identifier : List Identifier
  membership : String
  member : List String
  type_ : String
  extension : List Extension
deriving DecidableEq, Repr

/-- `DocumentReferenceTransformer.fhir_group` (transformer.py lines
1361-1377).  The source mutates `_identifier.value`, appending
`"_" + _type` before minting; the updated identifier is returned alongside
the group so callers can observe the mutation.  `none` models the `assert`
failure for an unknown type tag. -/
def fhir_group (t : Transformer) (member_ids : List String) (_type : String)
    (_identifier : Identifier) (extensions : List Extension) :
    Option (Group × Identifier) :=
  let ref_type : Option String :=
    if _type = "patient" then some "Patient"
    else if _type = "specimen" then some "Specimen"
    else none
  match ref_type with
  | none => none
  | some rt =>
    let _members := member_ids.map (fun m => rt ++ "/" ++ m)
    let ident : Identifier := { _identifier with value := _identifier.value ++ "_" ++ _type }
    let group_id := t.mint_id ident "Group"
    some ({ id := group_id
            identifier := [ident]
            membership := "definitional"
            member := _members
            type_ := _type
            extension := extensions }, ident)

/-- The fields of the emitted `DocumentReference` needed by the claims. -/
structure DocumentReference where
  id : String
  identifier : List Identifier
  status : String
  subject : Option String
  extension : List Extension
deriving DecidableEq, Repr

/-- The dictionary returned by `fhir_document_reference`:
`{"DocumentReference": ..., "Group": ...}`. -/
structure DocRefResult where
  documentReference : Option DocumentReference
  group : Option Group
deriving DecidableEq, Repr

/-- The minted FHIR id of a specimen, as computed at transformer.py lines
1204-1205: `specimen_mintid(specimen_identifier(specimen)[0])`. -/
def specimen_fhir_id (t : Transformer) (s : CDASpecimen) : String :=
  specimen_mintid t ((specimen_identifier s).headD default)

/-- The guard of transformer.py line 1206:
`if fhir_specimen_id and self.is_valid_uuid(fhir_specimen_id)`. -/
def specimen_valid (t : Transformer) (s : CDASpecimen) : Bool :=
  specimen_fhir_id t s ≠ "" && is_valid_uuid (some (specimen_fhir_id t s))

/-- The minted FHIR id of a patient, as computed at transformer.py lines
1233-1234: `patient_mintid(patient_identifier(subject)[0])`. -/
def patient_fhir_id_of (t : Transformer) (su : CDASubject) : String :=
  patient_mintid t ((patient_identifier su).headD default)

/-- The guard of transformer.py line 1235:
`if fhir_patient_id and self.is_valid_uuid(fhir_patient_id)`. -/
def patient_valid (t : Transformer) (su : CDASubject) : Bool :=
  patient_fhir_id_of t su ≠ "" && is_valid_uuid (some (patient_fhir_id_of t su))

/-- The part-of-study extension list computed at transformer.py lines
1302-1311: the candidate subject is `patients[0]`, or, absent patients, the
session lookup of `specimens[0].derived_from_subject`. -/
def doc_ref_part_of_extensions (t : Transformer)
    (lookup_subject : Option String → Option CDASubject)
    (patients : List CDASubject) (specimens : List CDASpecimen) :
    List Extension :=
  match patients with
  | su :: _ => t.get_part_of_study_extension su []
  | [] =>
    match specimens with
    | sp :: _ =>
      match lookup_subject sp.derived_from_subject with
      | some su => t.get_part_of_study_extension su []
      | none => []
    | [] => []

/-- `DocumentReferenceTransformer.fhir_document_reference` (transformer.py
lines 1173-1348), with the straight-line attachment/category metadata (which
no claim mentions) omitted.  `lookup_subject` models the session query
`select(CDASubject).filter_by(id=specimens[0].derived_from_subject)`.
The specimen/patient branches, the validity filtering, the early return
`{"DocumentReference": None, "Group": None}`, the Group synthesis, and the
Group rebuild (which re-mutates the already-mutated identifier) follow the
source line by line. -/
def fhir_document_reference (t : Transformer)
    (lookup_subject : Option String → Option CDASubject)
    (cda_file : CDAFile) (patients : List CDASubject)
    (specimens : List CDASpecimen) : DocRefResult :=
  let _doc_ref_identifier : Identifier :=
    ⟨"https://" ++ CDA_SITE ++ "/id", cda_file.id, "official"⟩
  let _doc_ref_alias_identifier : Identifier :=
    ⟨"https://" ++ CDA_SITE ++ "/alias", toString cda_file.integer_id_alias, "secondary"⟩
  let _doc_ref_dbgap_identifier : Identifier :=
    ⟨"https://" ++ CDA_SITE ++ "/dbgap_accession_number",
     cda_file.dbgap_accession_number, "secondary"⟩
  let _doc_ref_id := t.mint_id _doc_ref_identifier "DocumentReference"
  -- specimen branch (lines 1202-1228)
  let specimen_cda_ids := (specimens.filter (specimen_valid t)).map (fun s => s.id)
  let specimen_fhir_ids := (specimens.filter (specimen_valid t)).map
    (fun s => specimen_fhir_id t s)
  -- (subject_reference, group, mutated specimen-group identifier)
  let specRes : Option String × Option Group × Option Identifier :=
    if specimens ≠ [] ∧ specimen_fhir_ids ≠ [] then
      if specimen_fhir_ids.length > 1 then
        let group_identifier : Identifier :=
          ⟨"https://" ++ CDA_SITE ++ "/specimen_group",
           pyJoin "/" (_doc_ref_identifier.value :: specimen_cda_ids),
           "secondary"⟩
        match fhir_group t specimen_fhir_ids "specimen" group_identifier [] with
        | some (g, gi) => (some ("Group/" ++ g.id), some g, some gi)
        | none => (none, none, none)
      else
        (some ("Specimen/" ++ specimen_fhir_ids.headD ""), none, none)
    else (none, none, none)
  -- patient branch (lines 1230-1250); mutates _doc_ref_identifier when a
  -- patient group is built
  let patient_fhir_ids :=
    if specimens = [] ∧ patients ≠ [] then
      ((patients.filter (patient_valid t)).map (fun su => patient_fhir_id_of t su))
    else []
  if specimens = [] ∧ patients ≠ [] ∧ patient_fhir_ids.length = 0 then
    -- early return: log `Skipping transformation` and emit nothing
    { documentReference := none, group := none }
  else
    let patRes : Option String × Option Group × Identifier :=
      if specimens = [] ∧ patients ≠ [] then
        if patient_fhir_ids.length = 1 then
          (some ("Patient/" ++ patient_fhir_ids.headD ""), none, _doc_ref_identifier)
        else
          match fhir_group t patient_fhir_ids "patient" _doc_ref_identifier [] with
          | some (g, gi) => (some ("Group/" ++ g.id), some g, gi)
          | none => (none, none, _doc_ref_identifier)
      else (specRes.1, specRes.2.1, _doc_ref_identifier)
    let subject_reference := patRes.1
    let group := patRes.2.1
    let doc_ident := patRes.2.2
    -- part-of-study extensions (lines 1302-1311)
    let part_of_extensions := doc_ref_part_of_extensions t lookup_subject patients specimens
    -- group rebuild with extensions (lines 1313-1328): the identifier passed
    -- is the one already mutated by the first `fhir_group` call, so the type
    -- tag is appended a second time
    let rebuilt : Option String × Option Group × Identifier :=
      if group.isSome ∧ part_of_extensions ≠ [] then
        if specimens ≠ [] then
          match specRes.2.2 with
          | some gi =>
            match fhir_group t specimen_fhir_ids "specimen" gi part_of_extensions with
            | some (g, _) => (some ("Group/" ++ g.id), some g, doc_ident)
            | none => (subject_reference, group, doc_ident)
          | none => (subject_reference, group, doc_ident)
        else
          match fhir_group t patient_fhir_ids "patient" doc_ident part_of_extensions with
          | some (g, gi) => (some ("Group/" ++ g.id), some g, gi)
          | none => (subject_reference, group, doc_ident)
      else (subject_reference, group, doc_ident)
    let doc_ref : DocumentReference :=
      { id := _doc_ref_id
        identifier := [rebuilt.2.2, _doc_ref_dbgap_identifier, _doc_ref_alias_identifier]
        status := "current"
        subject := rebuilt.1
        extension := part_of_extensions }
    { documentReference := some doc_ref, group := rebuilt.2.1 }

/-! ## Treatment → MedicationAdministration -/

/-- The fields of `CDATreatment` (cdamodels.py lines 162-178) read by the
embedded code. -/
structure CDATreatment where
  id : String
  therapeutic_agent : Option String
  days_to_treatment_start : Option Int
  days_to_treatment_end : Option Int
deriving DecidableEq, Repr

/-- A minted Medication: only its id is read by
`create_medication_administration`. -/
structure Medication where
  id : String
deriving DecidableEq, Repr

/-- The fields of the emitted `MedicationAdministration` needed by the
claims: coding, reference, status and the timing bounds. -/
structure MedicationAdministration where
  id : String
  identifier_value : String
  status : String
  medication_code : String
  medication_display : String
  medication_reference : Option String
  subject : String
  bounds_low : Int
  bounds_high : Int
  extension : List Extension
deriving DecidableEq, Repr

/-- `MedicationAdministrationTransformer.create_medication_administration`
(transformer.py lines 1521-1578).  `.error` models the `IndexError` raised
by `extensions[0]` when the part-of-study list is empty; the status and the
timing-bounds defaults use Python truthiness on the day offsets. -/
def create_medication_administration (t : Transformer) (treatment : CDATreatment)
    (subject : CDASubject) (medication : Option Medication) :
    Except String MedicationAdministration :=
  let patient_identifiers := patient_identifier subject
  let fhir_patient_id := patient_mintid t (patient_identifiers.headD default)
  let medication_name :=
    if pyTruthyS treatment.therapeutic_agent then
      pyUpper (treatment.therapeutic_agent.getD "")
    else "Unknown"
  let medication_admin_id := t.mint_id
    ⟨"https://" ++ CDA_SITE ++ "/treatment",
     fhir_patient_id ++ "-" ++ medication_name, "official"⟩
    "MedicationAdministration"
  let bounds_low : Int :=
    if pyTruthyI treatment.days_to_treatment_start then
      treatment.days_to_treatment_start.getD 0
    else 0
  let bounds_high : Int :=
    if pyTruthyI treatment.days_to_treatment_end then
      treatment.days_to_treatment_end.getD 0
    else 1
  let medication_code := match medication with
    | none => "261665006"
    | some _ => medication_name
  let medication_display := match medication with
    | none => "Unknown"
    | some _ => medication_name
  let medication_reference := medication.map (fun m => "Medication/" ++ m.id)
  let extensions := t.get_part_of_study_extension subject []
  match extensions with
  | [] => .error "IndexError: extensions[0]"
  | _ =>
    .ok
      { id := medication_admin_id
        identifier_value := fhir_patient_id ++ "-" ++ medication_name
        status := if pyTruthyI treatment.days_to_treatment_end then "completed"
                  else "in-progress"
        medication_code := medication_code
        medication_display := medication_display
        medication_reference := medication_reference
        subject := "Patient/" ++ fhir_patient_id
        bounds_low := bounds_low
        bounds_high := bounds_high
        extension := extensions }

/-! ## Mutation → Observation (MutationTransformer) -/

/-- A Python value as held by a mutation attribute: SQLAlchemy yields `str`,
`int` or `bool` objects here.  In Python, `bool` is a subtype of `int`. -/
inductive PyVal where
  | s (v : String)
  | i (v : Int)
  | b (v : Bool)
deriving DecidableEq, Repr

/-- `isinstance(v, int)` — true for Python ints AND bools. -/
def py_isinstance_int : PyVal → Bool
  | .i _ => true
  | .b _ => true
  | .s _ => false

/-- `isinstance(v, bool)`. -/
def py_isinstance_bool : PyVal → Bool
  | .b _ => true
  | _ => false

/-- The component dictionary built by `Transformer.get_component`
(transformer.py lines 89-121): the coding key, the system, the value key
chosen from the `component_type` tag, and the raw value. -/
structure Component where
  key : String
  system : String
  valueKey : String
  value : PyVal
deriving DecidableEq, Repr

/-- `Transformer.get_component`: maps the `component_type` tag to the value
key of the payload (`string → valueString`, `int → valueInteger`,
`float → valueQuantity`, `bool → valueBoolean`, `dateTime → valueDateTime`;
anything else leaves the value untagged). -/
def get_component (key : String) (value : PyVal) (component_type : String)
    (system : String) : Component :=
  let valueKey :=
    if component_type = "string" then "valueString"
    else if component_type = "int" then "valueInteger"
    else if component_type = "float" then "valueQuantity"
    else if component_type = "bool" then "valueBoolean"
    else if component_type = "dateTime" then "valueDateTime"
    else ""
  { key := key, system := system, valueKey := valueKey, value := value }

/-- The fields of `CDAMutation` (cdamodels.py lines 317-356).  `hotspot` is
the one `Boolean` column; `integer_id_alias` the one extra `Integer` column;
the rest are `String` columns. -/
structure CDAMutation where
  id : String
  integer_id_alias : Option Int
  project_short_name : Option String
  hugo_symbol : Option String
  entrez_gene_id : Option String
  hotspot : Option Bool
  ncbi_build : Option String
  chromosome : Option String
  variant_type : Option String
  variant_class : Option String
  reference_allele : Option String
  match_norm_seq_allele1 : Option String
  match_norm_seq_allele2 : Option String
  tumor_seq_allele1 : Option String
  tumor_seq_allele2 : Option String
  dbsnp_rs : Option String
  mutation_status : Option String
  transcript_id : Option String
  gene : Option String
  one_consequence : Option String
  hgnc_id : Option String
  primary_site : Option String
  case_barcode : Option String
  case_id : Option String
  sample_barcode_tumor : Option String
  tumor_submitter_uuid : Option String
  sample_barcode_normal : Option String
  normal_submitter_uuid : Option String
  aliquot_barcode_tumor : Option String
  tumor_aliquot_uuid : Option String
  aliquot_barcode_normal : Option String
  matched_norm_aliquot_uuid : Option String
deriving Repr

/-- First slice of `vars(mutation).items()`: the SQLAlchemy-internal
`_sa_instance_state` attribute (always present, underscore-prefixed), the
primary key, the alias, and the leading mapped columns. -/
def mutation_vars_a (m : CDAMutation) : List (String × Option PyVal) :=
  [("_sa_instance_state", some (PyVal.s "instance-state")),
   ("id", some (PyVal.s m.id)),
   ("integer_id_alias", m.integer_id_alias.map PyVal.i),
   ("project_short_name", m.project_short_name.map PyVal.s),
   ("hugo_symbol", m.hugo_symbol.map PyVal.s),
   ("entrez_gene_id", m.entrez_gene_id.map PyVal.s),
   ("hotspot", m.hotspot.map PyVal.b),
   ("ncbi_build", m.ncbi_build.map PyVal.s)]

/-- Second slice of `vars(mutation).items()`. -/
def mutation_vars_b (m : CDAMutation) : List (String × Option PyVal) :=
  [("chromosome", m.chromosome.map PyVal.s),
   ("variant_type", m.variant_type.map PyVal.s),
   ("variant_class", m.variant_class.map PyVal.s),
   ("reference_allele", m.reference_allele.map PyVal.s),
   ("match_norm_seq_allele1", m.match_norm_seq_allele1.map PyVal.s),
   ("match_norm_seq_allele2", m.match_norm_seq_allele2.map PyVal.s),
   ("tumor_seq_allele1", m.tumor_seq_allele1.map PyVal.s),
   ("tumor_seq_allele2", m.tumor_seq_allele2.map PyVal.s),
   ("dbsnp_rs", m.dbsnp_rs.map PyVal.s)]

/-- Third slice of `vars(mutation).items()`. -/
def mutation_vars_c (m : CDAMutation) : List (String × Option PyVal) :=
  [("mutation_status", m.mutation_status.map PyVal.s),
   ("transcript_id", m.transcript_id.map PyVal.s),
   ("gene", m.gene.map PyVal.s),
   ("one_consequence", m.one_consequence.map PyVal.s),
   ("hgnc_id", m.hgnc_id.map PyVal.s),
   ("primary_site", m.primary_site.map PyVal.s),
   ("case_barcode", m.case_barcode.map PyVal.s),
   ("case_id", m.case_id.map PyVal.s)]

/-- Fourth slice of `vars(mutation).items()`. -/
def mutation_vars_d (m : CDAMutation) : List (String × Option PyVal) :=
  [("sample_barcode_tumor", m.sample_barcode_tumor.map PyVal.s),
   ("tumor_submitter_uuid", m.tumor_submitter_uuid.map PyVal.s),
   ("sample_barcode_normal", m.sample_barcode_normal.map PyVal.s),
   ("normal_submitter_uuid", m.normal_submitter_uuid.map PyVal.s),
   ("aliquot_barcode_tumor", m.aliquot_barcode_tumor.map PyVal.s),
   ("tumor_aliquot_uuid", m.tumor_aliquot_uuid.map PyVal.s),
   ("aliquot_barcode_normal", m.aliquot_barcode_normal.map PyVal.s),
   ("matched_norm_aliquot_uuid", m.matched_norm_aliquot_uuid.map PyVal.s)]

/-- `vars(mutation).items()` as seen by `create_mutation_observation`
(sliced into four parts purely to keep compilation tractable). -/
def mutation_vars (m : CDAMutation) : List (String × Option PyVal) :=
  mutation_vars_a m ++ mutation_vars_b m ++ mutation_vars_c m ++ mutation_vars_d m

/-- The fields of the mutation Observation needed by the claims. -/
structure MutationObservation where
  id : String
  identifier : List Identifier
  status : String
  subject : String
  component : List Component
  extension : List Extension
deriving DecidableEq, Repr

/-- `MutationTransformer.create_mutation_observation` (transformer.py lines
1592-1670): skips underscore-prefixed names, `id`, `integer_id_alias` and
`None` values, then tags the component type by `isinstance` checks — `int`
first, so Python `bool`s take the `int` branch.  At lines 1624-1628 the
source calls `get_part_of_study_extension` TWICE with the same `extensions`
list, so each extension is appended twice; line 1629 then evaluates
`extensions[0]` unconditionally, raising IndexError when the list is empty
(`.error` here, as in `create_medication_administration`); the
`isinstance`/`Extension(**e)` conversion preserves content. -/
def create_mutation_observation (t : Transformer) (mutation : CDAMutation)
    (subject : CDASubject) : Except String MutationObservation :=
  let patient_identifiers := patient_identifier subject
  let fhir_patient_id := patient_mintid t (patient_identifiers.headD default)
  let mutation_identifier : Identifier :=
    ⟨"https://www.ebi.ac.uk/chembl", mutation.id, "official"⟩
  let mutation_id := t.mint_id mutation_identifier "Observation"
  let components := (mutation_vars mutation).filterMap (fun fv =>
    if pyStartsWith fv.1 "_" ∨ fv.1 = "id" ∨ fv.1 = "integer_id_alias" then none
    else
      match fv.2 with
      | none => none
      | some v =>
        let component_type :=
          if py_isinstance_int v then "int"
          else if py_isinstance_bool v then "bool"
          else "string"
        some (get_component fv.1 v component_type
          ("https://" ++ CDA_SITE ++ "/" ++ fv.1)))
  let extensions := t.get_part_of_study_extension subject []
  let extensions := t.get_part_of_study_extension subject extensions
  match extensions with
  | [] => .error "IndexError: extensions[0]"
  | _ =>
    .ok
      { id := mutation_id
        identifier := [mutation_identifier]
        status := "final"
        subject := "Patient/" ++ fhir_patient_id
        component := components
        extension := extensions }

/-! ## The ndjson store: `create_or_extend` (utils.py lines 242-276) -/

/-- A parsed ndjson line: a FHIR resource reduced to its id and its
remaining content. -/
structure NDJSONItem where
  id : String
  body : String
deriving DecidableEq, Repr

/-- Assignment in a Python `dict` kept as an insertion-ordered association
list: an existing key keeps its position and gets the new value; a new key
is appended. -/
def dict_set (m : List (String × NDJSONItem)) (k : String) (v : NDJSONItem) :
    List (String × NDJSONItem) :=
  if m.any (fun p => p.1 = k) then
    m.map (fun p => if p.1 = k then (k, v) else p)
  else m ++ [(k, v)]

/-- The `existing_data` dict built from the lines already in the file
(utils.py lines 252-259): later lines with a duplicate id overwrite earlier
ones in place. -/
def load_existing (lines : List NDJSONItem) : List (String × NDJSONItem) :=
  lines.foldl (fun m item => dict_set m item.id item) []

/-- The merge loop of `create_or_extend` (utils.py lines 261-264):
`if new_item_id not in existing_data or update_existing: existing_data[id] = new_item`. -/
def merge_new (update_existing : Bool) (m : List (String × NDJSONItem))
    (new_items : List NDJSONItem) : List (String × NDJSONItem) :=
  new_items.foldl (fun m item =>
    if !(m.any (fun p => p.1 = item.id)) || update_existing then
      dict_set m item.id item
    else m) m

/-- `create_or_extend` (utils.py lines 242-276): merge `new_items` into the
store keyed by id — a new item is written iff its id is absent or
`update_existing` is set — then rewrite the file from the dict's values. -/
def create_or_extend (existing_lines new_items : List NDJSONItem)
    (update_existing : Bool) : List NDJSONItem :=
  (merge_new update_existing (load_existing existing_lines) new_items).map
    (fun p => p.2)

/-- Lookup by id in the association list. -/
def lookupId (m : List (String × NDJSONItem)) (k : String) : Option NDJSONItem :=
  (m.find? (fun p => p.1 = k)).map (fun p => p.2)

/-- Lookup of the entry for `k` in an ndjson file, reading top-down
(`find?` returns the first line with matching id). -/
def fileLookup (lines : List NDJSONItem) (k : String) : Option NDJSONItem :=
  lines.find? (fun it => it.id = k)

/-! ## Concrete UUID algebras used to instantiate witnesses -/

/-- A transparent algebra: `uuid5` returns its name argument, making minted
ids human-readable in witnesses. -/
def algPlain : UuidAlg :=
  { uuid3 := fun _ _ => "dns-ns", uuid5 := fun _ n => n }

/-- An algebra whose `uuid5` always returns a fixed 32-hex-digit string, so
every minted id passes `is_valid_uuid`. -/
def algHex : UuidAlg :=
  { uuid3 := fun _ _ => "dns-ns"
    uuid5 := fun _ _ => "00000000000000000000000000000000" }

/-- An algebra whose `uuid5` returns one of two distinct 32-hex-digit
strings depending on whether the name mentions the substring `s1/s2`; it
separates the two member orders while keeping every minted id valid. -/
def algSplit : UuidAlg :=
  { uuid3 := fun _ _ => "dns-ns"
    uuid5 := fun _ n =>
      if pyInStr "s1/s2" n then "aaaaaaaaaaaaaaaaaaaaaaaaaaaaaaaa"
      else "bbbbbbbbbbbbbbbbbbbbbbbbbbbbbbbb" }

/-! ## Concrete records used by witnesses and counterexamples -/

/-- A subject with one project relation, so the part-of-study list is
non-empty. -/
def subjectP1 : CDASubject :=
  { id := "S.1", integer_id_alias := 7
    subject_project_relation := ["P1"], subject_identifier := [] }

/-- A treatment whose end-day offset is present but zero. -/
def treatmentEndZero : CDATreatment :=
  { id := "t1", therapeutic_agent := none
    days_to_treatment_start := none, days_to_treatment_end := some 0 }

/-- A mutation whose only populated non-identifier attribute is the Boolean
column `hotspot`. -/
def mutationHotspotOnly : CDAMutation :=
  { id := "m1", integer_id_alias := none
    project_short_name := none, hugo_symbol := none, entrez_gene_id := none
    hotspot := some true
    ncbi_build := none, chromosome := none, variant_type := none
    variant_class := none, reference_allele := none
    match_norm_seq_allele1 := none, match_norm_seq_allele2 := none
    tumor_seq_allele1 := none, tumor_seq_allele2 := none, dbsnp_rs := none
    mutation_status := none, transcript_id := none, gene := none
    one_consequence := none, hgnc_id := none, primary_site := none
    case_barcode := none, case_id := none, sample_barcode_tumor := none
    tumor_submitter_uuid := none, sample_barcode_normal := none
    normal_submitter_uuid := none, aliquot_barcode_tumor := none
    tumor_aliquot_uuid := none, aliquot_barcode_normal := none
    matched_norm_aliquot_uuid := none }

/-- A second subject with one project relation, distinct from `subjectP1`. -/
def subjectP2 : CDASubject :=
  { id := "S.2", integer_id_alias := 8
    subject_project_relation := ["P1"], subject_identifier := [] }

/-- A subject with no project relation and no dot in its id: it yields an
empty part-of-study extension list. -/
def subjectNoExt1 : CDASubject :=
  { id := "S1", integer_id_alias := 11
    subject_project_relation := [], subject_identifier := [] }

/-- A second extension-free subject. -/
def subjectNoExt2 : CDASubject :=
  { id := "S2", integer_id_alias := 12
    subject_project_relation := [], subject_identifier := [] }

/-- A concrete CDA file record. -/
def fileF : CDAFile :=
  { id := "f1", integer_id_alias := 3, dbgap_accession_number := "db" }

/-- A specimen with business id `s1` and no other data. -/
def spA : CDASpecimen :=
  { id := "s1", anatomical_site := none, derived_from_subject := none }

/-- A specimen with business id `s2` and no other data. -/
def spB : CDASpecimen :=
  { id := "s2", anatomical_site := none, derived_from_subject := none }

/-- A diagnosis with BOTH `pathologic_stage` and `grade` populated, and a
valid primary diagnosis string. -/
def dStageBoth : CDADiagnosis :=
  { id := "d2", primary_diagnosis := some "Lung Adenocarcinoma"
    age_at_diagnosis := none
    pathologic_stage := some "Stage II", pathologic_stage_t := none
    pathologic_stage_n := none, pathologic_stage_m := none
    grade := some "G2", clinical_stage := none, clinical_stage_t := none
    clinical_stage_n := none, clinical_stage_m := none }

/-- Two specimens sharing the anatomical site "lung" but belonging to
different subjects. -/
def specLung1 : CDASpecimen :=
  { id := "sp1", anatomical_site := some "lung", derived_from_subject := none }

/-- Second specimen with the same site, different id and subject. -/
def specLung2 : CDASpecimen :=
  { id := "sp2", anatomical_site := some "lung",
    derived_from_subject := some "S.1" }

/-- The BodyStructure produced for `specLung1` under `algPlain`. -/
def bodyLung1 : BodyStructure :=
  { id := "CDA/BodyStructure/https://cda.readthedocs.io|lung"
    identifier := [⟨"https://cda.readthedocs.io", "lung", "official"⟩]
    includedStructure := [⟨"lung", "lung"⟩]
    patient := "Patient/pa1"
    extension := [] }

/-- The BodyStructure produced for `specLung2` under `algPlain`: same minted
id although the specimen and the patient differ. -/
def bodyLung2 : BodyStructure :=
  { id := "CDA/BodyStructure/https://cda.readthedocs.io|lung"
    identifier := [⟨"https://cda.readthedocs.io", "lung", "official"⟩]
    includedStructure := [⟨"lung", "lung"⟩]
    patient := "Patient/pa2"
    extension := [] }

end CDA2FHIR

namespace CDA2FHIR

/-- C1: `mint_id` is deterministic and a pure function of its inputs.  Two
transformers constructed by `Transformer.__init__` in distinct runs (distinct
session tokens) yield the identical UUID string for identical
`(resource_type, system, value)` inputs, and that string is exactly
`uuid5(uuid3(NAMESPACE_DNS, 'cda.readthedocs.io'),
'{project_id}/{resource_type}/{system}|{value}')`, with no randomness or
clock dependence (the result depends on nothing but the quantified inputs). -/
theorem mint_id_deterministic (alg : UuidAlg) (session₁ session₂ : Nat)
    (rt sys val use₁ use₂ : String) :
    (Transformer.init alg session₁).mint_id ⟨sys, val, use₁⟩ rt
      = (Transformer.init alg session₂).mint_id ⟨sys, val, use₂⟩ rt
    ∧ (Transformer.init alg session₁).mint_id ⟨sys, val, use₁⟩ rt
      = alg.uuid5 (alg.uuid3 NAMESPACE_DNS CDA_SITE)
          ("fhir_aggregator-cda" ++ "/" ++ rt ++ "/" ++ sys ++ "|" ++ val) := by
  refine ⟨rfl, ?_⟩
  simp [Transformer.init, Transformer.mint_id, Transformer.mint_id_str,
    String.append_assoc]

/-- C7: for every Diagnosis record whose `primary_diagnosis` is `None` or
fails the tokenization regex (which an empty or all-whitespace string does),
`ConditionTransformer.condition` returns no resource (`none`) instead of
emitting a Condition; the embedded function is total, so this outcome raises
no exception and a caller can log and continue. -/
theorem condition_skips_invalid_primary_diagnosis (t : Transformer)
    (d : CDADiagnosis) (p : Patient)
    (h : d.primary_diagnosis = none
      ∨ pyRegexMatch (d.primary_diagnosis.getD "") = false) :
    condition t d p = none := by
  cases hpd : d.primary_diagnosis with
  | none => simp [condition, hpd]
  | some s =>
    rcases h with h | h
    · rw [hpd] at h; cases h
    · rw [hpd] at h
      simp only [Option.getD_some] at h
      simp [condition, hpd, h]

/-- C7 witness: the regex rejects the empty, the all-whitespace and the
doubly-spaced string, and a concrete diagnosis with all-whitespace primary
diagnosis yields no Condition. -/
theorem condition_skips_invalid_primary_diagnosis_witness :
    pyRegexMatch "" = false ∧ pyRegexMatch "   " = false
    ∧ pyRegexMatch "a  b" = false
    ∧ condition (Transformer.initCDA algPlain 0)
        ⟨"d1", some "   ", none, none, none, none, none, none, none, none,
          none, none⟩ ⟨"p1", []⟩ = none :=
  ⟨by decide, by decide, by decide,
   condition_skips_invalid_primary_diagnosis _ _ _ (Or.inr (by decide))⟩

/-- C6 counterexample: the claim says every unrecognized non-empty value is
mapped to an explicit fallback extension, but `map_gender` has no catch-all
branch: the unrecognized non-empty value "xyz" yields no extension at all. -/
theorem map_gender_unrecognized_counterexample :
    "xyz" ≠ "" ∧ map_gender (some "xyz") = none :=
  ⟨by decide, by decide⟩

/-- C6 as amended: `map_race` and `map_ethnicity` behave as claimed (table,
'not reported'/'unknown' fallback for unrecognized non-empty values, omission
for null/empty), but `map_gender` only maps its enumerated values and omits
the extension for every other value, including unrecognized non-empty ones. -/
theorem demographic_mappers_amended :
    (map_gender none = none ∧ map_race none = none ∧ map_ethnicity none = none)
    ∧ (map_gender (some "") = none ∧ map_race (some "") = none
        ∧ map_ethnicity (some "") = none)
    ∧ (∀ s : String, s ≠ "" →
        pyStrip s ∉ (["male", "Male", "M", "female", "Female", "F",
          "Unspecified", "Not specified in data", "O", "U", "0000"] : List String) →
        map_gender (some s) = none)
    ∧ (∀ r : String, r ≠ "" →
        r ∉ (["white", "White", "black or african american",
          "Black or African American", "asian", "Asian",
          "native hawaiian or other pacific islander",
          "Native Hawaiian or other Pacific Islander",
          "Native Hawaiian or Other Pacific Islander",
          "american indian or alaska native",
          "American Indian or Alaska Native"] : List String) →
        map_race (some r) = some ⟨RACE_URL, "not reported"⟩)
    ∧ (∀ e : String, e ≠ "" →
        e ∉ (["not hispanic or latino", "Not Hispanic or Latino",
          "Not Hispanic or", "Non-Hispanic/Non", "Non-Hispanic [1]",
          "Non-Hispanic", "Non-Hispanic [9]", "Not Hispanic Lat",
          "hispanic or latino", "Hispanic or Latino", "Hispanic/Latino",
          "Hispanic Latino", "anonymous", "REMOVED", "Patient Refused",
          "Patient Declined", "anonymized"] : List String) →
        map_ethnicity (some e) = some ⟨ETHNICITY_URL, "unknown"⟩)
    ∧ (map_gender (some "Male") = some ⟨BIRTHSEX_URL, "M"⟩
        ∧ map_race (some "Asian") = some ⟨RACE_URL, "Asian"⟩
        ∧ map_ethnicity (some "Hispanic or Latino")
            = some ⟨ETHNICITY_URL, "hispanic or latino"⟩) := by
  refine ⟨⟨by decide, by decide, by decide⟩,
          ⟨by decide, by decide, by decide⟩, ?_, ?_, ?_,
          ⟨by decide, by decide, by decide⟩⟩
  · intro s hne hnotin
    simp only [List.mem_cons, List.not_mem_nil, or_false, not_or] at hnotin
    obtain ⟨h1, h2, h3, h4, h5, h6, h7, h8, h9, h10, h11⟩ := hnotin
    simp [map_gender, pyStripIfTruthy, hne, h1, h2, h3, h4, h5, h6, h7, h8,
      h9, h10, h11]
  · intro r hne hnotin
    simp only [List.mem_cons, List.not_mem_nil, or_false, not_or] at hnotin
    obtain ⟨h1, h2, h3, h4, h5, h6, h7, h8, h9, h10, h11⟩ := hnotin
    simp [map_race, pyTruthyS, hne, h1, h2, h3, h4, h5, h6, h7, h8, h9,
      h10, h11]
  · intro e hne hnotin
    simp only [List.mem_cons, List.not_mem_nil, or_false, not_or] at hnotin
    obtain ⟨h1, h2, h3, h4, h5, h6, h7, h8, h9, h10, h11, h12, h13, h14,
      h15, h16, h17⟩ := hnotin
    simp [map_ethnicity, pyTruthyS, hne, h1, h2, h3, h4, h5, h6, h7, h8,
      h9, h10, h11, h12, h13, h14, h15, h16, h17]

/-- C6 witness: the amended universal statements applied at concrete
unrecognized values. -/
theorem demographic_mappers_amended_witness :
    map_gender (some "xyz-g") = none
    ∧ map_race (some "xyz-r") = some ⟨RACE_URL, "not reported"⟩
    ∧ map_ethnicity (some "xyz-e") = some ⟨ETHNICITY_URL, "unknown"⟩ :=
  ⟨demographic_mappers_amended.2.2.1 "xyz-g" (by decide) (by decide),
   demographic_mappers_amended.2.2.2.1 "xyz-r" (by decide) (by decide),
   demographic_mappers_amended.2.2.2.2.1 "xyz-e" (by decide) (by decide)⟩

/-- C9 counterexample: the claim says boolean values are typed as
`valueBoolean`, but for a mutation whose only populated non-identifier
attribute is the Boolean column `hotspot`, the single emitted component is
typed `valueInteger` — `isinstance(v, int)` is tested before
`isinstance(v, bool)` and Python's `bool` is a subtype of `int`. -/
theorem mutation_bool_component_counterexample :
    ((create_mutation_observation (Transformer.initCDA algPlain 0)
        mutationHotspotOnly subjectP1).toOption.map
      (fun o => o.component.map (fun c => c.valueKey)))
      = some ["valueInteger"]
    ∧ ((create_mutation_observation (Transformer.initCDA algPlain 0)
        mutationHotspotOnly subjectP1).toOption.map
      (fun o => o.component.map (fun c => c.value)))
      = some [PyVal.b true]
    ∧ "valueInteger" ≠ "valueBoolean" := by
  refine ⟨by decide, by decide, by decide⟩

/-- Helper: `get_part_of_study_extension` appends a suffix that does not
depend on the list it is given (the Python function mutates the passed list
by appending). -/
theorem get_part_of_study_extension_append (t : Transformer) (su : CDASubject)
    (x : List Extension) :
    t.get_part_of_study_extension su x
      = x ++ t.get_part_of_study_extension su [] := by
  simp only [Transformer.get_part_of_study_extension]
  repeat' split
  all_goals simp_all

/-- The component typing that the code actually implements: `int` and `bool`
values both take the `int` branch, everything else is a string. -/
def actual_component_type (v : PyVal) : String :=
  match v with
  | .i _ => "int"
  | .b _ => "int"
  | .s _ => "string"

/-- C9 as amended: when the subject yields no part-of-study extension, the
source raises IndexError at `extensions[0]` and emits no Observation;
otherwise exactly one Observation per mutation row, whose components are
generated from all attributes except underscore-prefixed ones, `id`,
`integer_id_alias` and `None`-valued fields; integer AND boolean values are
typed `valueInteger` (because `bool` is an `int` in Python and the `int`
test comes first), all other values `valueString`; and because
`get_part_of_study_extension` is invoked twice on the same list, the
Observation carries every part-of-study extension twice. -/
theorem mutation_observation_components_amended :
    (∀ (t : Transformer) (m : CDAMutation) (su : CDASubject),
        t.get_part_of_study_extension su [] = [] →
        create_mutation_observation t m su = .error "IndexError: extensions[0]")
    ∧ (∀ (t : Transformer) (m : CDAMutation) (su : CDASubject),
        t.get_part_of_study_extension su [] ≠ [] →
        ∃ obs, create_mutation_observation t m su = .ok obs
          ∧ obs.component = (mutation_vars m).filterMap (fun fv =>
              if pyStartsWith fv.1 "_" ∨ fv.1 = "id" ∨ fv.1 = "integer_id_alias" then
                none
              else fv.2.map (fun v => get_component fv.1 v (actual_component_type v)
                ("https://" ++ CDA_SITE ++ "/" ++ fv.1)))
          ∧ (∀ c ∈ obs.component,
              ¬pyStartsWith c.key "_" ∧ c.key ≠ "id" ∧ c.key ≠ "integer_id_alias")
          ∧ (∀ c ∈ obs.component,
              (∀ b, c.value = PyVal.b b → c.valueKey = "valueInteger")
              ∧ (∀ i, c.value = PyVal.i i → c.valueKey = "valueInteger")
              ∧ (∀ v, c.value = PyVal.s v → c.valueKey = "valueString"))
          ∧ obs.extension = t.get_part_of_study_extension su
              (t.get_part_of_study_extension su [])
          ∧ obs.extension = t.get_part_of_study_extension su []
              ++ t.get_part_of_study_extension su []) := by
  have htype : ∀ (fv : String × Option PyVal),
      (if pyStartsWith fv.1 "_" ∨ fv.1 = "id" ∨ fv.1 = "integer_id_alias" then
        (none : Option Component)
      else
        match fv.2 with
        | none => none
        | some v =>
          let component_type :=
            if py_isinstance_int v then "int"
            else if py_isinstance_bool v then "bool"
            else "string"
          some (get_component fv.1 v component_type
            ("https://" ++ CDA_SITE ++ "/" ++ fv.1)))
      = (if pyStartsWith fv.1 "_" ∨ fv.1 = "id" ∨ fv.1 = "integer_id_alias" then
          none
        else fv.2.map (fun v => get_component fv.1 v (actual_component_type v)
          ("https://" ++ CDA_SITE ++ "/" ++ fv.1))) := by
    intro fv
    rcases fv with ⟨k, v⟩
    cases v with
    | none => simp
    | some v => cases v <;> simp [actual_component_type, py_isinstance_int,
        py_isinstance_bool, get_component]
  constructor
  · intro t m su hnone
    have hcomposed : t.get_part_of_study_extension su
        (t.get_part_of_study_extension su []) = [] := by
      rw [hnone, hnone]
    simp only [create_mutation_observation, hcomposed]
  · intro t m su hext
    cases hE : t.get_part_of_study_extension su [] with
    | nil => exact absurd hE hext
    | cons e es =>
      have hcomposed : t.get_part_of_study_extension su (e :: es)
          = e :: (es ++ (e :: es)) := by
        rw [get_part_of_study_extension_append, hE, List.cons_append]
      refine ⟨{ id := t.mint_id
                  ⟨"https://www.ebi.ac.uk/chembl", m.id, "official"⟩ "Observation"
                identifier := [⟨"https://www.ebi.ac.uk/chembl", m.id, "official"⟩]
                status := "final"
                subject := "Patient/" ++ patient_mintid t
                  ((patient_identifier su).headD default)
                component := (mutation_vars m).filterMap (fun fv =>
                  if pyStartsWith fv.1 "_" ∨ fv.1 = "id"
                      ∨ fv.1 = "integer_id_alias" then none
                  else fv.2.map (fun v =>
                    get_component fv.1 v (actual_component_type v)
                      ("https://" ++ CDA_SITE ++ "/" ++ fv.1)))
                extension := e :: (es ++ (e :: es)) },
              ?_, rfl, ?_, ?_, hcomposed.symm, rfl⟩
      · simp only [create_mutation_observation, hE, hcomposed]
        congr 1
        congr 1
        exact List.filterMap_congr (fun fv _ => htype fv)
      · intro c hc
        obtain ⟨fv, _, hfv⟩ := List.mem_filterMap.mp hc
        by_cases hskip : pyStartsWith fv.1 "_" ∨ fv.1 = "id"
            ∨ fv.1 = "integer_id_alias"
        · rw [if_pos hskip] at hfv; cases hfv
        · rw [if_neg hskip] at hfv
          cases hv : fv.2 with
          | none => rw [hv] at hfv; cases hfv
          | some v =>
            rw [hv] at hfv
            simp only [Option.map_some'] at hfv
            injection hfv with hinj
            subst hinj
            push_neg at hskip
            exact ⟨by simp [get_component, hskip.1], hskip.2.1, hskip.2.2⟩
      · intro c hc
        obtain ⟨fv, _, hfv⟩ := List.mem_filterMap.mp hc
        by_cases hskip : pyStartsWith fv.1 "_" ∨ fv.1 = "id"
            ∨ fv.1 = "integer_id_alias"
        · rw [if_pos hskip] at hfv; cases hfv
        · rw [if_neg hskip] at hfv
          cases hv : fv.2 with
          | none => rw [hv] at hfv; cases hfv
          | some v =>
            rw [hv] at hfv
            simp only [Option.map_some'] at hfv
            injection hfv with hinj
            subst hinj
            refine ⟨?_, ?_, ?_⟩ <;> intro x hx <;> cases v <;>
              first
                | rfl
                | simp [get_component, actual_component_type] at hx

/-- C9 witness: the amended characterization applied to concrete inputs —
the error case at a subject yielding no part-of-study extension, and the
ok case (with the doubled extension list) at a subject yielding one. -/
theorem mutation_observation_components_amended_witness :
    ((Transformer.initCDA algPlain 0).get_part_of_study_extension
        subjectNoExt1 [] = []
      ∧ create_mutation_observation (Transformer.initCDA algPlain 0)
          mutationHotspotOnly subjectNoExt1
        = .error "IndexError: extensions[0]")
    ∧ ((Transformer.initCDA algPlain 0).get_part_of_study_extension
        subjectP1 [] ≠ []
      ∧ ∃ obs, create_mutation_observation (Transformer.initCDA algPlain 0)
            mutationHotspotOnly subjectP1 = .ok obs
          ∧ obs.extension
              = (Transformer.initCDA algPlain 0).get_part_of_study_extension
                  subjectP1 []
                ++ (Transformer.initCDA algPlain 0).get_part_of_study_extension
                  subjectP1 []) :=
  ⟨⟨by decide,
    mutation_observation_components_amended.1 (Transformer.initCDA algPlain 0)
      mutationHotspotOnly subjectNoExt1 (by decide)⟩,
   ⟨by decide,
    (mutation_observation_components_amended.2 (Transformer.initCDA algPlain 0)
        mutationHotspotOnly subjectP1 (by decide)).elim
      (fun obs h => ⟨obs, h.1, h.2.2.2.2.2⟩)⟩⟩

/-- C8 counterexample: the claim says the status is 'completed' exactly when
`days_to_treatment_end` is present, but the code tests Python truthiness: a
treatment whose end-day offset is present and equal to `0` gets status
'in-progress', and its high bound defaults to `1` instead of `0`. -/
theorem medication_administration_end_zero_counterexample :
    treatmentEndZero.days_to_treatment_end = some 0
    ∧ ((create_medication_administration (Transformer.initCDA algPlain 0)
          treatmentEndZero subjectP1 none).toOption.map
        (fun a => a.status)) = some "in-progress"
    ∧ ((create_medication_administration (Transformer.initCDA algPlain 0)
          treatmentEndZero subjectP1 none).toOption.map
        (fun a => a.bounds_high)) = some 1
    ∧ "in-progress" ≠ "completed" := by
  refine ⟨by decide, by decide, by decide, by decide⟩

/-- C8 as amended: provided the subject yields at least one part-of-study
extension (with none, `extensions[0]` raises IndexError and nothing is
emitted), a MedicationAdministration is emitted even with no compound-lookup
match (`medication = None`), carrying the fixed code `261665006` with display
'Unknown' and no Medication reference; its status is 'completed' exactly when
`days_to_treatment_end` is present and non-zero (Python truthiness), and the
timing bounds default to `low=0` / `high=1` when the respective offset is
missing or zero. -/
theorem create_medication_administration_amended (t : Transformer)
    (tr : CDATreatment) (su : CDASubject)
    (hext : t.get_part_of_study_extension su [] ≠ []) :
    ∃ a, create_medication_administration t tr su none = .ok a
      ∧ a.medication_code = "261665006"
      ∧ a.medication_display = "Unknown"
      ∧ a.medication_reference = none
      ∧ a.status = (if pyTruthyI tr.days_to_treatment_end then "completed"
                    else "in-progress")
      ∧ a.bounds_low = (if pyTruthyI tr.days_to_treatment_start then
                          tr.days_to_treatment_start.getD 0
                        else 0)
      ∧ a.bounds_high = (if pyTruthyI tr.days_to_treatment_end then
                          tr.days_to_treatment_end.getD 0
                        else 1) := by
  cases hE : t.get_part_of_study_extension su [] with
  | nil => exact absurd hE hext
  | cons e es =>
    refine ⟨{ id := t.mint_id
                ⟨"https://" ++ CDA_SITE ++ "/treatment",
                 patient_mintid t ((patient_identifier su).headD default) ++ "-"
                   ++ (if pyTruthyS tr.therapeutic_agent then
                        pyUpper (tr.therapeutic_agent.getD "")
                      else "Unknown"), "official"⟩
                "MedicationAdministration"
              identifier_value := patient_mintid t
                  ((patient_identifier su).headD default) ++ "-"
                ++ (if pyTruthyS tr.therapeutic_agent then
                      pyUpper (tr.therapeutic_agent.getD "")
                    else "Unknown")
              status := if pyTruthyI tr.days_to_treatment_end then "completed"
                        else "in-progress"
              medication_code := "261665006"
              medication_display := "Unknown"
              medication_reference := none
              subject := "Patient/" ++ patient_mintid t
                ((patient_identifier su).headD default)
              bounds_low := if pyTruthyI tr.days_to_treatment_start then
                              tr.days_to_treatment_start.getD 0
                            else 0
              bounds_high := if pyTruthyI tr.days_to_treatment_end then
                              tr.days_to_treatment_end.getD 0
                            else 1
              extension := e :: es },
            ?_, rfl, rfl, rfl, rfl, rfl, rfl⟩
    simp only [create_medication_administration, hE]
    rfl

/-- C8 witness: the amended statement at a concrete treatment and subject;
the part-of-study list is non-empty because the subject has one project
relation. -/
theorem create_medication_administration_amended_witness :
    ∃ a, create_medication_administration (Transformer.initCDA algPlain 0)
          treatmentEndZero subjectP1 none = .ok a
      ∧ a.medication_code = "261665006"
      ∧ a.medication_display = "Unknown"
      ∧ a.medication_reference = none
      ∧ a.status = (if pyTruthyI treatmentEndZero.days_to_treatment_end then
                      "completed" else "in-progress")
      ∧ a.bounds_low = (if pyTruthyI treatmentEndZero.days_to_treatment_start then
                          treatmentEndZero.days_to_treatment_start.getD 0
                        else 0)
      ∧ a.bounds_high = (if pyTruthyI treatmentEndZero.days_to_treatment_end then
                          treatmentEndZero.days_to_treatment_end.getD 0
                        else 1) :=
  create_medication_administration_amended (Transformer.initCDA algPlain 0)
    treatmentEndZero subjectP1 (by decide)

/-- Helper: whenever `specimen_body_structure` emits a BodyStructure, its id
is minted from the identifier whose value is the anatomical site alone. -/
theorem specimen_body_structure_ok_id (t : Transformer) (s : CDASpecimen)
    (p : Patient) (f : Option SpecimenRes) (e : List Extension)
    (b : BodyStructure)
    (h : specimen_body_structure t s p f e = .ok (some b)) :
    b.id = t.mint_id ⟨"https://" ++ CDA_SITE, s.anatomical_site.getD "", "official"⟩
      "BodyStructure" := by
  obtain ⟨sid, osite, dsub⟩ := s
  cases osite with
  | none => cases h
  | some site =>
    simp only [specimen_body_structure] at h
    repeat' split at h
    all_goals cases h
    all_goals rfl

/-- C10: the BodyStructure id minted by `specimen_body_structure` depends
only on the specimen's `anatomical_site` string — the minted identifier's
value is the site alone, not the specimen or patient id — so any two
specimens with equal site values, even ones derived from different patients,
are assigned the identical BodyStructure id. -/
theorem body_structure_id_depends_only_on_site (t : Transformer)
    (s₁ s₂ : CDASpecimen) (p₁ p₂ : Patient) (f₁ f₂ : Option SpecimenRes)
    (e₁ e₂ : List Extension) (b₁ b₂ : BodyStructure)
    (hsite : s₁.anatomical_site = s₂.anatomical_site)
    (h₁ : specimen_body_structure t s₁ p₁ f₁ e₁ = .ok (some b₁))
    (h₂ : specimen_body_structure t s₂ p₂ f₂ e₂ = .ok (some b₂)) :
    b₁.id = b₂.id
    ∧ b₁.id = t.mint_id
        ⟨"https://" ++ CDA_SITE, s₁.anatomical_site.getD "", "official"⟩
        "BodyStructure" := by
  have q₁ := specimen_body_structure_ok_id t s₁ p₁ f₁ e₁ b₁ h₁
  have q₂ := specimen_body_structure_ok_id t s₂ p₂ f₂ e₂ b₂ h₂
  refine ⟨?_, q₁⟩
  rw [q₁, q₂, hsite]

/-- C10 witness: two concrete specimens with site "lung", different ids and
different patients, both yield the same minted BodyStructure id. -/
theorem body_structure_id_depends_only_on_site_witness :
    bodyLung1.id = bodyLung2.id
    ∧ bodyLung1.id = (Transformer.initCDA algPlain 0).mint_id
        ⟨"https://" ++ CDA_SITE, specLung1.anatomical_site.getD "", "official"⟩
        "BodyStructure" :=
  body_structure_id_depends_only_on_site (Transformer.initCDA algPlain 0)
    specLung1 specLung2 ⟨"pa1", []⟩ ⟨"pa2", []⟩ none none [] []
    bodyLung1 bodyLung2 rfl rfl rfl

/-- Helper: a truthy optional string is `some s` with `s` non-empty. -/
theorem pyTruthyS_exists {o : Option String} (h : pyTruthyS o = true) :
    ∃ s, o = some s ∧ s ≠ "" := by
  cases o with
  | none => cases h
  | some s => exact ⟨s, rfl, by simpa [pyTruthyS] using h⟩

/-- Helper: the `if/elif` cascade agrees with first-populated lookup over
any ordered field list. -/
theorem stageFromList_eq_findSome (l : List (Option String × Coding)) :
    stageFromList l
      = match l.findSome? (fun p =>
          if pyTruthyS p.1 then some (p.2, p.1.getD "") else none) with
        | some cs => (some cs.1, some cs.2)
        | none => (none, none) := by
  induction l with
  | nil => rfl
  | cons p rest ih =>
    rcases p with ⟨o, c⟩
    by_cases h : pyTruthyS o = true
    · obtain ⟨s, hs, _⟩ := pyTruthyS_exists h
      rw [hs] at h
      simp [stageFromList, List.findSome?_cons, h, hs]
    · simp only [Bool.not_eq_true] at h
      simp [stageFromList, List.findSome?_cons, h, ih]

/-- Helper: when `fetch_stage_info` finds a stage, the display value is the
(truthy, hence non-empty) content of the selected field. -/
theorem fetch_stage_info_display_ne {d : CDADiagnosis} {sc : Coding}
    {sv : String} (hf : fetch_stage_info d = (some sc, some sv)) : sv ≠ "" := by
  unfold fetch_stage_info at hf
  repeat' split at hf
  all_goals simp_all [pyTruthyS]

/-- C4: the Condition's stage and its companion stage Observation are derived
from exactly the first populated field in the fixed priority order
(pathologic stage group, T, N, M, grade, clinical stage group, T, N, M);
later populated fields are ignored, never merged — in particular, when
`pathologic_stage` is populated the result reflects it alone, whatever
`grade` and the other fields hold; and when no stage field is populated the
Condition is still emitted, with no stage entry and no companion Observation
(the caller emits the stage Observation only for a non-empty stage list). -/
theorem condition_stage_first_populated (t : Transformer) (d : CDADiagnosis)
    (p : Patient)
    (hpd : pyRegexMatch (d.primary_diagnosis.getD "") = true) :
    (fetch_stage_info d
      = match firstPopulatedStage d with
        | some cs => (some cs.1, some cs.2)
        | none => (none, none))
    ∧ (pyTruthyS d.pathologic_stage = true →
        fetch_stage_info d = (some pathologicStageCode, d.pathologic_stage))
    ∧ (fetch_stage_info d = (none, none) →
        (condition t d p).isSome
        ∧ (condition t d p).map (fun c => c.stage) = some []
        ∧ (condition t d p).map stage_observation_emitted = some false)
    ∧ (∀ sc sv, fetch_stage_info d = (some sc, some sv) →
        (condition t d p).map (fun c => c.stage)
          = some [⟨⟨sc.system, sc.code, sv⟩,
              "Observation/" ++ t.mint_id
                ⟨"https://" ++ CDA_SITE ++ "/diagnosis", d.id, "official"⟩
                "Observation"⟩]
        ∧ (condition t d p).map stage_observation_emitted = some true
        ∧ ∀ cid, (condition_observation t d sc (some sv) p cid).valueCoding
            = ⟨sc.system, sc.code, sv⟩) := by
  have hfetch : fetch_stage_info d = stageFromList (stageFieldsInPriorityOrder d) := rfl
  refine ⟨?_, ?_, ?_, ?_⟩
  · rw [hfetch, stageFromList_eq_findSome, firstPopulatedStage]
  · intro h
    simp [fetch_stage_info, h]
  · intro hf
    cases hpde : d.primary_diagnosis with
    | none =>
      rw [hpde] at hpd
      exact absurd hpd (by decide)
    | some pd =>
      rw [hpde] at hpd
      simp only [Option.getD_some] at hpd
      simp [condition, hpde, hpd, hf, stage_observation_emitted]
  · intro sc sv hf
    have hsv : sv ≠ "" := fetch_stage_info_display_ne hf
    cases hpde : d.primary_diagnosis with
    | none =>
      rw [hpde] at hpd
      exact absurd hpd (by decide)
    | some pd =>
      rw [hpde] at hpd
      simp only [Option.getD_some] at hpd
      refine ⟨?_, ?_, fun cid => rfl⟩
      · simp [condition, hpde, hpd, hf, condition_observation]
      · simp [condition, hpde, hpd, hf, stage_observation_emitted, hsv]

/-- C4 witness: for a diagnosis with both `pathologic_stage = "Stage II"` and
`grade = "G2"`, the stage reflects the pathologic stage only, and the emitted
Condition carries exactly that stage with its assessment reference. -/
theorem condition_stage_first_populated_witness :
    fetch_stage_info dStageBoth
      = (some pathologicStageCode, dStageBoth.pathologic_stage)
    ∧ ((condition (Transformer.initCDA algPlain 0) dStageBoth ⟨"p1", []⟩).map
          (fun c => c.stage)
        = some [⟨⟨pathologicStageCode.system, pathologicStageCode.code,
            "Stage II"⟩,
            "Observation/" ++ (Transformer.initCDA algPlain 0).mint_id
              ⟨"https://" ++ CDA_SITE ++ "/diagnosis", dStageBoth.id, "official"⟩
              "Observation"⟩]) :=
  have h := condition_stage_first_populated (Transformer.initCDA algPlain 0)
    dStageBoth ⟨"p1", []⟩ (by decide)
  ⟨h.2.1 (by decide),
   (h.2.2.2 pathologicStageCode "Stage II" (by decide)).1⟩

/-- Helper: with zero specimen and zero subject associations, a
DocumentReference is still emitted, with no subject and no group. -/
theorem docref_zero_zero (t : Transformer)
    (lookup : Option String → Option CDASubject) (f : CDAFile) :
    fhir_document_reference t lookup f [] []
      = { documentReference := some
            { id := t.mint_id ⟨"https://" ++ CDA_SITE ++ "/id", f.id, "official"⟩
                "DocumentReference"
              identifier := [⟨"https://" ++ CDA_SITE ++ "/id", f.id, "official"⟩,
                ⟨"https://" ++ CDA_SITE ++ "/dbgap_accession_number",
                 f.dbgap_accession_number, "secondary"⟩,
                ⟨"https://" ++ CDA_SITE ++ "/alias", toString f.integer_id_alias,
                 "secondary"⟩]
              status := "current"
              subject := none
              extension := [] }
          group := none } := rfl

/-- Helper: exactly one valid specimen yields a direct Specimen subject
reference and no Group, whatever the patient list holds. -/
theorem docref_one_specimen (t : Transformer)
    (lookup : Option String → Option CDASubject) (f : CDAFile)
    (patients : List CDASubject) (s : CDASpecimen)
    (hval : specimen_valid t s = true) :
    ((fhir_document_reference t lookup f patients [s]).documentReference.map
        (fun dr => dr.subject))
      = some (some ("Specimen/" ++ specimen_fhir_id t s))
    ∧ (fhir_document_reference t lookup f patients [s]).group = none := by
  simp only [fhir_document_reference, List.filter_cons, hval, List.filter_nil,
    List.map_cons, List.map_nil]
  simp

/-- Helper: two or more valid specimens (no part-of-study extensions) yield
a Group whose identifier joins the file id and the specimen CDA ids in
encounter order, with the type tag appended once. -/
theorem docref_many_specimens_noext (t : Transformer)
    (lookup : Option String → Option CDASubject) (f : CDAFile)
    (patients : List CDASubject) (specimens : List CDASpecimen)
    (hall : specimens.filter (specimen_valid t) = specimens)
    (hlen : 1 < specimens.length)
    (hext : doc_ref_part_of_extensions t lookup patients specimens = []) :
    fhir_document_reference t lookup f patients specimens
      = { documentReference := some
            { id := t.mint_id ⟨"https://" ++ CDA_SITE ++ "/id", f.id, "official"⟩
                "DocumentReference"
              identifier := [⟨"https://" ++ CDA_SITE ++ "/id", f.id, "official"⟩,
                ⟨"https://" ++ CDA_SITE ++ "/dbgap_accession_number",
                 f.dbgap_accession_number, "secondary"⟩,
                ⟨"https://" ++ CDA_SITE ++ "/alias", toString f.integer_id_alias,
                 "secondary"⟩]
              status := "current"
              subject := some ("Group/" ++ t.mint_id
                ⟨"https://" ++ CDA_SITE ++ "/specimen_group",
                 pyJoin "/" (f.id :: specimens.map (fun s => s.id)) ++ "_" ++ "specimen",
                 "secondary"⟩ "Group")
              extension := [] }
          group := some
            { id := t.mint_id
                ⟨"https://" ++ CDA_SITE ++ "/specimen_group",
                 pyJoin "/" (f.id :: specimens.map (fun s => s.id)) ++ "_" ++ "specimen",
                 "secondary"⟩ "Group"
              identifier := [⟨"https://" ++ CDA_SITE ++ "/specimen_group",
                pyJoin "/" (f.id :: specimens.map (fun s => s.id)) ++ "_" ++ "specimen",
                "secondary"⟩]
              membership := "definitional"
              member := specimens.map (fun s => "Specimen/" ++ specimen_fhir_id t s)
              type_ := "specimen"
              extension := [] } } := by
  have hne : specimens ≠ [] := by
    intro h; rw [h] at hlen; simp at hlen
  have hmapne : specimens.map (fun s => specimen_fhir_id t s) ≠ [] := by
    simp [hne]
  have hlen2 : 1 < (specimens.map (fun s => specimen_fhir_id t s)).length := by
    simpa using hlen
  simp only [fhir_document_reference, hall, fhir_group, hext]
  simp [hne, hmapne, hlen, hlen2, hext, Function.comp, gt_iff_lt]

/-- Helper: two or more valid specimens with part-of-study extensions: the
Group is rebuilt from the already-mutated identifier, so the type tag is
appended twice and the minted Group id changes. -/
theorem docref_many_specimens_ext (t : Transformer)
    (lookup : Option String → Option CDASubject) (f : CDAFile)
    (patients : List CDASubject) (specimens : List CDASpecimen)
    (hall : specimens.filter (specimen_valid t) = specimens)
    (hlen : 1 < specimens.length)
    (hext : doc_ref_part_of_extensions t lookup patients specimens ≠ []) :
    fhir_document_reference t lookup f patients specimens
      = { documentReference := some
            { id := t.mint_id ⟨"https://" ++ CDA_SITE ++ "/id", f.id, "official"⟩
                "DocumentReference"
              identifier := [⟨"https://" ++ CDA_SITE ++ "/id", f.id, "official"⟩,
                ⟨"https://" ++ CDA_SITE ++ "/dbgap_accession_number",
                 f.dbgap_accession_number, "secondary"⟩,
                ⟨"https://" ++ CDA_SITE ++ "/alias", toString f.integer_id_alias,
                 "secondary"⟩]
              status := "current"
              subject := some ("Group/" ++ t.mint_id
                ⟨"https://" ++ CDA_SITE ++ "/specimen_group",
                 (pyJoin "/" (f.id :: specimens.map (fun s => s.id)) ++ "_" ++ "specimen")
                   ++ "_" ++ "specimen",
                 "secondary"⟩ "Group")
              extension := doc_ref_part_of_extensions t lookup patients specimens }
          group := some
            { id := t.mint_id
                ⟨"https://" ++ CDA_SITE ++ "/specimen_group",
                 (pyJoin "/" (f.id :: specimens.map (fun s => s.id)) ++ "_" ++ "specimen")
                   ++ "_" ++ "specimen",
                 "secondary"⟩ "Group"
              identifier := [⟨"https://" ++ CDA_SITE ++ "/specimen_group",
                (pyJoin "/" (f.id :: specimens.map (fun s => s.id)) ++ "_" ++ "specimen")
                  ++ "_" ++ "specimen",
                "secondary"⟩]
              membership := "definitional"
              member := specimens.map (fun s => "Specimen/" ++ specimen_fhir_id t s)
              type_ := "specimen"
              extension := doc_ref_part_of_extensions t lookup patients specimens } } := by
  have hne : specimens ≠ [] := by
    intro h; rw [h] at hlen; simp at hlen
  have hmapne : specimens.map (fun s => specimen_fhir_id t s) ≠ [] := by
    simp [hne]
  have hlen2 : 1 < (specimens.map (fun s => specimen_fhir_id t s)).length := by
    simpa using hlen
  simp only [fhir_document_reference, hall, fhir_group]
  simp [hne, hmapne, hlen, hlen2, hext, Function.comp, gt_iff_lt]

/-- Helper: subjects present but none minting to a valid id: the whole file
is skipped (DocumentReference and Group both None). -/
theorem docref_patients_none_valid (t : Transformer)
    (lookup : Option String → Option CDASubject) (f : CDAFile)
    (patients : List CDASubject)
    (hne : patients ≠ [])
    (hval : patients.filter (patient_valid t) = []) :
    fhir_document_reference t lookup f patients []
      = { documentReference := none, group := none } := by
  simp only [fhir_document_reference, hval]
  simp [hne]

/-- Helper: exactly one valid patient (no specimens) yields a direct Patient
subject reference and no Group. -/
theorem docref_one_patient (t : Transformer)
    (lookup : Option String → Option CDASubject) (f : CDAFile)
    (patients : List CDASubject) (su : CDASubject)
    (hne : patients ≠ [])
    (hval : patients.filter (patient_valid t) = [su]) :
    ((fhir_document_reference t lookup f patients []).documentReference.map
        (fun dr => dr.subject))
      = some (some ("Patient/" ++ patient_fhir_id_of t su))
    ∧ (fhir_document_reference t lookup f patients []).group = none := by
  simp only [fhir_document_reference, hval]
  simp [hne]

/-- Helper: two or more valid patients (no extensions) yield a Group whose
identifier is the mutated DocumentReference identifier (the file id with
the type tag appended and NO member ids), and the mutated identifier also
replaces the DocumentReference identifier list head. -/
theorem docref_many_patients_noext (t : Transformer)
    (lookup : Option String → Option CDASubject) (f : CDAFile)
    (patients : List CDASubject) (vs : List CDASubject)
    (hne : patients ≠ [])
    (hval : patients.filter (patient_valid t) = vs)
    (hlen : 1 < vs.length)
    (hext : doc_ref_part_of_extensions t lookup patients [] = []) :
    fhir_document_reference t lookup f patients []
      = { documentReference := some
            { id := t.mint_id ⟨"https://" ++ CDA_SITE ++ "/id", f.id, "official"⟩
                "DocumentReference"
              identifier := [⟨"https://" ++ CDA_SITE ++ "/id",
                f.id ++ "_" ++ "patient", "official"⟩,
                ⟨"https://" ++ CDA_SITE ++ "/dbgap_accession_number",
                 f.dbgap_accession_number, "secondary"⟩,
                ⟨"https://" ++ CDA_SITE ++ "/alias", toString f.integer_id_alias,
                 "secondary"⟩]
              status := "current"
              subject := some ("Group/" ++ t.mint_id
                ⟨"https://" ++ CDA_SITE ++ "/id", f.id ++ "_" ++ "patient",
                 "official"⟩ "Group")
              extension := [] }
          group := some
            { id := t.mint_id
                ⟨"https://" ++ CDA_SITE ++ "/id", f.id ++ "_" ++ "patient",
                 "official"⟩ "Group"
              identifier := [⟨"https://" ++ CDA_SITE ++ "/id",
                f.id ++ "_" ++ "patient", "official"⟩]
              membership := "definitional"
              member := vs.map (fun su => "Patient/" ++ patient_fhir_id_of t su)
              type_ := "patient"
              extension := [] } } := by
  have hvne : vs.map (fun su => patient_fhir_id_of t su) ≠ [] := by
    intro h
    rw [List.map_eq_nil_iff] at h
    rw [h] at hlen
    simp at hlen
  have hlen2 : 1 < (vs.map (fun su => patient_fhir_id_of t su)).length := by
    simpa using hlen
  have hlen1 : ¬(vs.map (fun su => patient_fhir_id_of t su)).length = 1 := by
    intro h
    rw [List.length_map] at h
    omega
  have hvsne : vs ≠ [] := by
    intro h; rw [h] at hlen; simp at hlen
  have hvs1 : ¬vs.length = 1 := by omega
  simp only [fhir_document_reference, hval, fhir_group]
  simp [hne, hvne, hlen, hlen2, hlen1, hvsne, hvs1, hext, Function.comp, gt_iff_lt]

/-- Helper: two or more valid patients with extensions: the rebuild mutates
the DocumentReference identifier a second time. -/
theorem docref_many_patients_ext (t : Transformer)
    (lookup : Option String → Option CDASubject) (f : CDAFile)
    (patients : List CDASubject) (vs : List CDASubject)
    (hne : patients ≠ [])
    (hval : patients.filter (patient_valid t) = vs)
    (hlen : 1 < vs.length)
    (hext : doc_ref_part_of_extensions t lookup patients [] ≠ []) :
    fhir_document_reference t lookup f patients []
      = { documentReference := some
            { id := t.mint_id ⟨"https://" ++ CDA_SITE ++ "/id", f.id, "official"⟩
                "DocumentReference"
              identifier := [⟨"https://" ++ CDA_SITE ++ "/id",
                (f.id ++ "_" ++ "patient") ++ "_" ++ "patient", "official"⟩,
                ⟨"https://" ++ CDA_SITE ++ "/dbgap_accession_number",
                 f.dbgap_accession_number, "secondary"⟩,
                ⟨"https://" ++ CDA_SITE ++ "/alias", toString f.integer_id_alias,
                 "secondary"⟩]
              status := "current"
              subject := some ("Group/" ++ t.mint_id
                ⟨"https://" ++ CDA_SITE ++ "/id",
                 (f.id ++ "_" ++ "patient") ++ "_" ++ "patient", "official"⟩ "Group")
              extension := doc_ref_part_of_extensions t lookup patients [] }
          group := some
            { id := t.mint_id
                ⟨"https://" ++ CDA_SITE ++ "/id",
                 (f.id ++ "_" ++ "patient") ++ "_" ++ "patient", "official"⟩ "Group"
              identifier := [⟨"https://" ++ CDA_SITE ++ "/id",
                (f.id ++ "_" ++ "patient") ++ "_" ++ "patient", "official"⟩]
              membership := "definitional"
              member := vs.map (fun su => "Patient/" ++ patient_fhir_id_of t su)
              type_ := "patient"
              extension := doc_ref_part_of_extensions t lookup patients [] } } := by
  have hvne : vs.map (fun su => patient_fhir_id_of t su) ≠ [] := by
    intro h
    rw [List.map_eq_nil_iff] at h
    rw [h] at hlen
    simp at hlen
  have hlen2 : 1 < (vs.map (fun su => patient_fhir_id_of t su)).length := by
    simpa using hlen
  have hlen1 : ¬(vs.map (fun su => patient_fhir_id_of t su)).length = 1 := by
    intro h
    rw [List.length_map] at h
    omega
  have hvsne : vs ≠ [] := by
    intro h; rw [h] at hlen; simp at hlen
  have hvs1 : ¬vs.length = 1 := by omega
  simp only [fhir_document_reference, hval, fhir_group]
  simp [hne, hvne, hlen, hlen2, hlen1, hvsne, hvs1, hext, Function.comp, gt_iff_lt]

/-- C2 counterexample: the claim says a file with zero resolvable specimen
and zero resolvable subject associations is skipped entirely, but the code
only skips in the patient branch; with both lists empty a DocumentReference
IS emitted, with no subject. -/
theorem fhir_document_reference_zero_assoc_counterexample :
    (fhir_document_reference (Transformer.initCDA algHex 0) (fun _ => none)
        fileF [] []).documentReference.isSome = true
    ∧ ((fhir_document_reference (Transformer.initCDA algHex 0) (fun _ => none)
        fileF [] []).documentReference.map (fun dr => dr.subject)) = some none :=
  ⟨rfl, rfl⟩

/-- C2 as amended: a DocumentReference with NO subject is emitted when both
association lists are empty (the claimed skip does not happen there); exactly
one valid specimen gives a direct Specimen reference; more than one valid
specimen gives a synthesized Group holding exactly the resolved references,
with the DocumentReference pointing at it; the skip (no DocumentReference at
all) occurs exactly when subjects are present but none mints a valid id; one
valid subject gives a direct Patient reference; several give a Group of the
resolved Patient references. -/
theorem fhir_document_reference_cardinality_amended :
    (∀ (t : Transformer) (lookup : Option String → Option CDASubject)
        (f : CDAFile),
        ((fhir_document_reference t lookup f [] []).documentReference.map
          (fun dr => dr.subject)) = some none
        ∧ (fhir_document_reference t lookup f [] []).group = none)
    ∧ (∀ (t : Transformer) lookup (f : CDAFile) patients (s : CDASpecimen),
        specimen_valid t s = true →
        ((fhir_document_reference t lookup f patients [s]).documentReference.map
          (fun dr => dr.subject))
          = some (some ("Specimen/" ++ specimen_fhir_id t s))
        ∧ (fhir_document_reference t lookup f patients [s]).group = none)
    ∧ (∀ (t : Transformer) lookup (f : CDAFile) patients
        (specimens : List CDASpecimen),
        specimens.filter (specimen_valid t) = specimens →
        1 < specimens.length →
        ∃ g, (fhir_document_reference t lookup f patients specimens).group = some g
          ∧ ((fhir_document_reference t lookup f patients specimens).documentReference.map
              (fun dr => dr.subject)) = some (some ("Group/" ++ g.id))
          ∧ g.member = specimens.map (fun s => "Specimen/" ++ specimen_fhir_id t s))
    ∧ (∀ (t : Transformer) lookup (f : CDAFile) (patients : List CDASubject),
        patients ≠ [] → patients.filter (patient_valid t) = [] →
        fhir_document_reference t lookup f patients []
          = { documentReference := none, group := none })
    ∧ (∀ (t : Transformer) lookup (f : CDAFile) (patients : List CDASubject)
        (su : CDASubject),
        patients ≠ [] → patients.filter (patient_valid t) = [su] →
        ((fhir_document_reference t lookup f patients []).documentReference.map
          (fun dr => dr.subject))
          = some (some ("Patient/" ++ patient_fhir_id_of t su))
        ∧ (fhir_document_reference t lookup f patients []).group = none)
    ∧ (∀ (t : Transformer) lookup (f : CDAFile) (patients vs : List CDASubject),
        patients ≠ [] → patients.filter (patient_valid t) = vs →
        1 < vs.length →
        ∃ g, (fhir_document_reference t lookup f patients []).group = some g
          ∧ ((fhir_document_reference t lookup f patients []).documentReference.map
              (fun dr => dr.subject)) = some (some ("Group/" ++ g.id))
          ∧ g.member = vs.map (fun su => "Patient/" ++ patient_fhir_id_of t su)) := by
  refine ⟨?_, ?_, ?_, ?_, ?_, ?_⟩
  · intro t lookup f
    rw [docref_zero_zero t lookup f]
    exact ⟨rfl, rfl⟩
  · intro t lookup f patients s hval
    exact docref_one_specimen t lookup f patients s hval
  · intro t lookup f patients specimens hall hlen
    by_cases hext : doc_ref_part_of_extensions t lookup patients specimens = []
    · rw [docref_many_specimens_noext t lookup f patients specimens hall hlen hext]
      exact ⟨_, rfl, rfl, rfl⟩
    · rw [docref_many_specimens_ext t lookup f patients specimens hall hlen hext]
      exact ⟨_, rfl, rfl, rfl⟩
  · intro t lookup f patients hne hval
    exact docref_patients_none_valid t lookup f patients hne hval
  · intro t lookup f patients su hne hval
    exact docref_one_patient t lookup f patients su hne hval
  · intro t lookup f patients vs hne hval hlen
    by_cases hext : doc_ref_part_of_extensions t lookup patients [] = []
    · rw [docref_many_patients_noext t lookup f patients vs hne hval hlen hext]
      exact ⟨_, rfl, rfl, rfl⟩
    · rw [docref_many_patients_ext t lookup f patients vs hne hval hlen hext]
      exact ⟨_, rfl, rfl, rfl⟩

/-- C2 witness: the amended cardinality statements at concrete inputs — one
valid specimen, two valid specimens, no valid patient, one valid patient and
two valid patients. -/
theorem fhir_document_reference_cardinality_amended_witness :
    (((fhir_document_reference (Transformer.initCDA algHex 0) (fun _ => none)
        fileF [] [spA]).documentReference.map (fun dr => dr.subject))
      = some (some ("Specimen/"
          ++ specimen_fhir_id (Transformer.initCDA algHex 0) spA)))
    ∧ (∃ g, (fhir_document_reference (Transformer.initCDA algHex 0)
          (fun _ => none) fileF [] [spA, spB]).group = some g
        ∧ ((fhir_document_reference (Transformer.initCDA algHex 0)
            (fun _ => none) fileF [] [spA, spB]).documentReference.map
            (fun dr => dr.subject)) = some (some ("Group/" ++ g.id))
        ∧ g.member = [spA, spB].map (fun s => "Specimen/"
            ++ specimen_fhir_id (Transformer.initCDA algHex 0) s))
    ∧ (fhir_document_reference (Transformer.initCDA algPlain 0) (fun _ => none)
        fileF [subjectP1] [] = { documentReference := none, group := none })
    ∧ (((fhir_document_reference (Transformer.initCDA algHex 0) (fun _ => none)
        fileF [subjectP1] []).documentReference.map (fun dr => dr.subject))
      = some (some ("Patient/"
          ++ patient_fhir_id_of (Transformer.initCDA algHex 0) subjectP1)))
    ∧ (∃ g, (fhir_document_reference (Transformer.initCDA algHex 0)
          (fun _ => none) fileF [subjectP1, subjectP2] []).group = some g
        ∧ g.member = [subjectP1, subjectP2].map (fun su => "Patient/"
            ++ patient_fhir_id_of (Transformer.initCDA algHex 0) su)) :=
  ⟨(fhir_document_reference_cardinality_amended.2.1 (Transformer.initCDA algHex 0)
      (fun _ => none) fileF [] spA (by decide)).1,
   fhir_document_reference_cardinality_amended.2.2.1 (Transformer.initCDA algHex 0)
      (fun _ => none) fileF [] [spA, spB] (by decide) (by decide),
   fhir_document_reference_cardinality_amended.2.2.2.1
      (Transformer.initCDA algPlain 0) (fun _ => none) fileF [subjectP1]
      (by decide) (by decide),
   (fhir_document_reference_cardinality_amended.2.2.2.2.1
      (Transformer.initCDA algHex 0) (fun _ => none) fileF [subjectP1] subjectP1
      (by decide) (by decide)).1,
   (fhir_document_reference_cardinality_amended.2.2.2.2.2
      (Transformer.initCDA algHex 0) (fun _ => none) fileF [subjectP1, subjectP2]
      [subjectP1, subjectP2] (by decide) (by decide) (by decide)).elim
      (fun g hg => ⟨g, hg.1, hg.2.2⟩)⟩

/-- C3 counterexample: the claim says the Group identifier uses the SORTED
set of member business ids, so that the same membership set always mints the
same Group id; but the code joins the ids in encounter order, and the same
two specimens presented in the two orders mint two different Group ids. -/
theorem group_identifier_order_counterexample :
    ((fhir_document_reference (Transformer.initCDA algSplit 0) (fun _ => none)
        fileF [] [spA, spB]).group.map (fun g => g.id))
      = some "aaaaaaaaaaaaaaaaaaaaaaaaaaaaaaaa"
    ∧ ((fhir_document_reference (Transformer.initCDA algSplit 0) (fun _ => none)
        fileF [] [spB, spA]).group.map (fun g => g.id))
      = some "bbbbbbbbbbbbbbbbbbbbbbbbbbbbbbbb"
    ∧ ("aaaaaaaaaaaaaaaaaaaaaaaaaaaaaaaa" : String)
        ≠ "bbbbbbbbbbbbbbbbbbbbbbbbbbbbbbbb" :=
  ⟨rfl, rfl, by decide⟩

/-- C3 as amended: `fhir_group` mints the Group id from its identifier after
appending `"_" + type tag` to the identifier's value (mutating it); in the
specimen case the identifier value fed to minting is the DocumentReference
identifier value joined with the member CDA ids in ENCOUNTER ORDER (not the
sorted set), with the tag appended once, so the minted id is a function of
the ordered id list; when part-of-study extensions are present the Group is
rebuilt from the already-mutated identifier, appending the tag a second time
and changing the minted id; in the patient case the identifier carries no
member ids at all, only the file id and the tag. -/
theorem group_identifier_amended :
    (∀ (t : Transformer) (mids : List String) (ty : String) (ident : Identifier)
        (exts : List Extension) (g : Group) (ident' : Identifier),
        fhir_group t mids ty ident exts = some (g, ident') →
        g.id = t.mint_id ⟨ident.system, ident.value ++ "_" ++ ty, ident.use⟩ "Group"
        ∧ ident'.value = ident.value ++ "_" ++ ty
        ∧ g.identifier = [⟨ident.system, ident.value ++ "_" ++ ty, ident.use⟩])
    ∧ (∀ (t : Transformer) lookup (f : CDAFile) patients
        (specimens : List CDASpecimen),
        specimens.filter (specimen_valid t) = specimens →
        1 < specimens.length →
        doc_ref_part_of_extensions t lookup patients specimens = [] →
        ((fhir_document_reference t lookup f patients specimens).group.map
          (fun g => g.identifier))
          = some [⟨"https://" ++ CDA_SITE ++ "/specimen_group",
              pyJoin "/" (f.id :: specimens.map (fun s => s.id)) ++ "_" ++ "specimen",
              "secondary"⟩])
    ∧ (∀ (t : Transformer) lookup (f : CDAFile) patients
        (specimens : List CDASpecimen),
        specimens.filter (specimen_valid t) = specimens →
        1 < specimens.length →
        doc_ref_part_of_extensions t lookup patients specimens ≠ [] →
        ((fhir_document_reference t lookup f patients specimens).group.map
          (fun g => g.identifier))
          = some [⟨"https://" ++ CDA_SITE ++ "/specimen_group",
              (pyJoin "/" (f.id :: specimens.map (fun s => s.id)) ++ "_" ++ "specimen")
                ++ "_" ++ "specimen",
              "secondary"⟩])
    ∧ (∀ (t : Transformer) lookup (f : CDAFile) (patients vs : List CDASubject),
        patients ≠ [] → patients.filter (patient_valid t) = vs →
        1 < vs.length →
        doc_ref_part_of_extensions t lookup patients [] = [] →
        ((fhir_document_reference t lookup f patients []).group.map
          (fun g => g.identifier))
          = some [⟨"https://" ++ CDA_SITE ++ "/id", f.id ++ "_" ++ "patient",
              "official"⟩]) := by
  refine ⟨?_, ?_, ?_, ?_⟩
  · intro t mids ty ident exts g ident' h
    by_cases hp : ty = "patient"
    · subst hp
      simp [fhir_group] at h
      obtain ⟨hg, hi⟩ := h
      subst hg; subst hi
      exact ⟨rfl, rfl, rfl⟩
    · by_cases hs : ty = "specimen"
      · subst hs
        simp [fhir_group] at h
        obtain ⟨hg, hi⟩ := h
        subst hg; subst hi
        exact ⟨rfl, rfl, rfl⟩
      · simp [fhir_group, hp, hs] at h
  · intro t lookup f patients specimens hall hlen hext
    rw [docref_many_specimens_noext t lookup f patients specimens hall hlen hext]
    rfl
  · intro t lookup f patients specimens hall hlen hext
    rw [docref_many_specimens_ext t lookup f patients specimens hall hlen hext]
    rfl
  · intro t lookup f patients vs hne hval hlen hext
    rw [docref_many_patients_noext t lookup f patients vs hne hval hlen hext]
    rfl

/-- C3 witness: the amended statements at concrete inputs — the single- and
double-suffixed specimen-group identifiers, and the member-free patient-group
identifier. -/
theorem group_identifier_amended_witness :
    (((fhir_document_reference (Transformer.initCDA algHex 0) (fun _ => none)
        fileF [] [spA, spB]).group.map (fun g => g.identifier))
      = some [⟨"https://" ++ CDA_SITE ++ "/specimen_group",
          pyJoin "/" (fileF.id :: [spA, spB].map (fun s => s.id)) ++ "_" ++ "specimen",
          "secondary"⟩])
    ∧ (((fhir_document_reference (Transformer.initCDA algHex 0)
          (fun _ => some subjectP1) fileF [] [spA, spB]).group.map
          (fun g => g.identifier))
      = some [⟨"https://" ++ CDA_SITE ++ "/specimen_group",
          (pyJoin "/" (fileF.id :: [spA, spB].map (fun s => s.id)) ++ "_" ++ "specimen")
            ++ "_" ++ "specimen",
          "secondary"⟩])
    ∧ (((fhir_document_reference (Transformer.initCDA algHex 0) (fun _ => none)
          fileF [subjectNoExt1, subjectNoExt2] []).group.map (fun g => g.identifier))
      = some [⟨"https://" ++ CDA_SITE ++ "/id", fileF.id ++ "_" ++ "patient",
          "official"⟩]) := by
  refine ⟨group_identifier_amended.2.1 (Transformer.initCDA algHex 0)
      (fun _ => none) fileF [] [spA, spB] (by decide) (by decide) (by decide),
    group_identifier_amended.2.2.1 (Transformer.initCDA algHex 0)
      (fun _ => some subjectP1) fileF [] [spA, spB] (by decide) (by decide)
      (by decide),
    group_identifier_amended.2.2.2 (Transformer.initCDA algHex 0)
      (fun _ => none) fileF [subjectNoExt1, subjectNoExt2]
      [subjectNoExt1, subjectNoExt2]
      (by decide) (by decide) (by decide) (by decide)⟩

/-- Helper: the keys of a dict assignment: unchanged on overwrite, the new
key appended otherwise. -/
theorem keys_dict_set (m : List (String × NDJSONItem)) (k : String)
    (v : NDJSONItem) :
    (dict_set m k v).map (fun p => p.1)
      = if m.any (fun p => p.1 = k) then m.map (fun p => p.1)
        else m.map (fun p => p.1) ++ [k] := by
  unfold dict_set
  split
  · rw [List.map_map]
    apply List.map_congr_left
    intro p _
    by_cases h : p.1 = k
    · simp [h]
    · simp [h]
  · simp

/-- Helper: dict assignment preserves distinctness of keys. -/
theorem nodup_keys_dict_set (m : List (String × NDJSONItem)) (k : String)
    (v : NDJSONItem) (h : (m.map (fun p => p.1)).Nodup) :
    ((dict_set m k v).map (fun p => p.1)).Nodup := by
  rw [keys_dict_set]
  split
  · exact h
  · next hany =>
    simp only [List.any_eq_true, decide_eq_true_eq, not_exists] at hany
    rw [List.nodup_append]
    refine ⟨h, List.nodup_singleton k, ?_⟩
    intro a ha
    simp only [List.mem_singleton]
    intro hak
    subst hak
    simp only [List.mem_map] at ha
    obtain ⟨p, hp, hpk⟩ := ha
    exact hany p ⟨hp, hpk⟩

/-- Helper: dict assignment with the item id as key preserves the invariant
that every entry is keyed by its item id. -/
theorem wf_dict_set (m : List (String × NDJSONItem)) (v : NDJSONItem)
    (h : ∀ p ∈ m, p.1 = p.2.id) :
    ∀ p ∈ dict_set m v.id v, p.1 = p.2.id := by
  unfold dict_set
  split
  · intro p hp
    simp only [List.mem_map] at hp
    obtain ⟨q, hq, hqe⟩ := hp
    by_cases hqk : q.1 = v.id
    · rw [if_pos hqk] at hqe
      rw [← hqe]
    · rw [if_neg hqk] at hqe
      rw [← hqe]
      exact h q hq
  · intro p hp
    rcases List.mem_append.mp hp with hp | hp
    · exact h p hp
    · simp only [List.mem_singleton] at hp
      rw [hp]

/-- Helper: overwriting the entry in place leaves it findable at its
original position with the new value. -/
theorem find?_map_replace_self (m : List (String × NDJSONItem)) (k : String)
    (v : NDJSONItem) (hany : m.any (fun p => p.1 = k) = true) :
    (m.map (fun p => if p.1 = k then (k, v) else p)).find?
      (fun p => decide (p.1 = k)) = some (k, v) := by
  induction m with
  | nil => simp at hany
  | cons p rest ih =>
    by_cases hp : p.1 = k
    · simp only [List.map_cons, if_pos hp]
      rw [List.find?_cons_of_pos _ (by simp)]
    · simp only [List.map_cons, if_neg hp]
      rw [List.find?_cons_of_neg _ (by simp [hp])]
      apply ih
      simp only [List.any_cons, Bool.or_eq_true, decide_eq_true_eq] at hany
      rcases hany with hany | hany
      · exact absurd hany hp
      · exact hany

/-- Helper: a key absent from the prefix is found in the appended
singleton. -/
theorem find?_append_self (m : List (String × NDJSONItem)) (k : String)
    (v : NDJSONItem) (hnone : ∀ p ∈ m, ¬p.1 = k) :
    (m ++ [(k, v)]).find? (fun p => decide (p.1 = k)) = some (k, v) := by
  induction m with
  | nil => simp
  | cons p rest ih =>
    rw [List.cons_append,
      List.find?_cons_of_neg _ (by simp [hnone p (List.mem_cons_self p rest)])]
    exact ih (fun q hq => hnone q (List.mem_cons_of_mem p hq))

/-- Helper: after assignment, looking the key up returns the new value. -/
theorem lookup_dict_set_self (m : List (String × NDJSONItem)) (k : String)
    (v : NDJSONItem) : lookupId (dict_set m k v) k = some v := by
  unfold dict_set lookupId
  split
  · next hany => rw [find?_map_replace_self m k v hany]; rfl
  · next hany =>
    rw [find?_append_self m k v ?_]
    · rfl
    · intro p hp hpk
      exact hany (by simp only [List.any_eq_true, decide_eq_true_eq]
                     exact ⟨p, hp, hpk⟩)

/-- Helper: overwriting one entry does not affect lookups of other keys. -/
theorem find?_map_replace_ne (m : List (String × NDJSONItem)) (k k' : String)
    (v : NDJSONItem) (hkk : ¬k = k') :
    (m.map (fun p => if p.1 = k then (k, v) else p)).find?
        (fun p => decide (p.1 = k'))
      = m.find? (fun p => decide (p.1 = k')) := by
  induction m with
  | nil => rfl
  | cons p rest ih =>
    by_cases hp : p.1 = k
    · have hp' : ¬p.1 = k' := by rw [hp]; exact hkk
      simp only [List.map_cons, if_pos hp]
      rw [List.find?_cons_of_neg _ (by simp [hkk]),
        List.find?_cons_of_neg _ (by simp [hp'])]
      exact ih
    · simp only [List.map_cons, if_neg hp]
      by_cases hpk : p.1 = k'
      · rw [List.find?_cons_of_pos _ (by simp [hpk]),
          List.find?_cons_of_pos _ (by simp [hpk])]
      · rw [List.find?_cons_of_neg _ (by simp [hpk]),
          List.find?_cons_of_neg _ (by simp [hpk])]
        exact ih

/-- Helper: dict assignment leaves every other key unchanged. -/
theorem lookup_dict_set_other (m : List (String × NDJSONItem)) (k k' : String)
    (v : NDJSONItem) (h : k' ≠ k) :
    lookupId (dict_set m k v) k' = lookupId m k' := by
  have hkk : ¬(k = k') := fun hh => h hh.symm
  unfold dict_set lookupId
  split
  · rw [find?_map_replace_ne m k k' v hkk]
  · rw [List.find?_append]
    have hone : List.find? (fun p => decide (p.1 = k')) [(k, v)] = none := by
      simp [hkk]
    rw [hone]
    simp

/-- Helper: looking a resource up in the rewritten file equals looking its
id up in the dict, given every entry is keyed by its item id. -/
theorem fileLookup_map_values (m : List (String × NDJSONItem)) (k : String)
    (hwf : ∀ p ∈ m, p.1 = p.2.id) :
    fileLookup (m.map (fun p => p.2)) k = lookupId m k := by
  induction m with
  | nil => rfl
  | cons p rest ih =>
    have hp := hwf p (List.mem_cons_self p rest)
    unfold fileLookup lookupId
    simp only [List.map_cons]
    by_cases hk : p.1 = k
    · rw [List.find?_cons_of_pos _ (by simp [← hp, hk]),
        List.find?_cons_of_pos _ (by simp [hk])]
      rfl
    · rw [List.find?_cons_of_neg _ (by simp [← hp]; exact hk),
        List.find?_cons_of_neg _ (by simp [hk])]
      exact ih (fun q hq => hwf q (List.mem_cons_of_mem p hq))

/-- Helper: one step of the merge loop. -/
theorem merge_new_cons (u : Bool) (m : List (String × NDJSONItem))
    (item : NDJSONItem) (rest : List NDJSONItem) :
    merge_new u m (item :: rest)
      = merge_new u
          (if !(m.any (fun p => p.1 = item.id)) || u then
            dict_set m item.id item
          else m) rest := rfl

/-- Helper: the merge loop preserves distinctness of keys. -/
theorem nodup_keys_merge_new (u : Bool) (new : List NDJSONItem) :
    ∀ m, (m.map (fun p => p.1)).Nodup →
    ((merge_new u m new).map (fun p => p.1)).Nodup := by
  induction new with
  | nil => intro m h; exact h
  | cons item rest ih =>
    intro m h
    rw [merge_new_cons]
    apply ih
    split
    · exact nodup_keys_dict_set m item.id item h
    · exact h

/-- Helper: the merge loop preserves the key-equals-item-id invariant. -/
theorem wf_merge_new (u : Bool) (new : List NDJSONItem) :
    ∀ m, (∀ p ∈ m, p.1 = p.2.id) →
    ∀ p ∈ merge_new u m new, p.1 = p.2.id := by
  induction new with
  | nil => intro m h; exact h
  | cons item rest ih =>
    intro m h
    rw [merge_new_cons]
    apply ih
    split
    · exact wf_dict_set m item h
    · exact h

/-- Helper: ids not among the new items are untouched by the merge loop. -/
theorem merge_new_lookup_not_mem (u : Bool) (new : List NDJSONItem) :
    ∀ m k, k ∉ new.map (fun x => x.id) →
    lookupId (merge_new u m new) k = lookupId m k := by
  induction new with
  | nil => intro m k _; rfl
  | cons item rest ih =>
    intro m k hk
    simp only [List.map_cons, List.mem_cons, not_or] at hk
    rw [merge_new_cons]
    rw [ih _ k (by simpa using hk.2)]
    split
    · exact lookup_dict_set_other m item.id k item hk.1
    · rfl

/-- Helper: without update_existing, ids already in the dict keep their
value through the merge loop (first-write wins). -/
theorem merge_new_false_lookup_mem (new : List NDJSONItem) :
    ∀ m k, k ∈ m.map (fun p => p.1) →
    lookupId (merge_new false m new) k = lookupId m k := by
  induction new with
  | nil => intro m k _; rfl
  | cons item rest ih =>
    intro m k hk
    rw [merge_new_cons]
    by_cases hmem : m.any (fun p => p.1 = item.id) = true
    · simp only [hmem, Bool.not_true, Bool.or_false, if_false, Bool.false_eq_true]
      exact ih m k hk
    · have hne : k ≠ item.id := by
        intro hkk
        subst hkk
        apply hmem
        simp only [List.mem_map] at hk
        obtain ⟨p, hp, hpk⟩ := hk
        simp only [List.any_eq_true, decide_eq_true_eq]
        exact ⟨p, hp, hpk⟩
      have hstep : (if !(m.any (fun p => p.1 = item.id)) || false then
            dict_set m item.id item else m) = dict_set m item.id item := by
        simp [hmem]
      rw [hstep]
      rw [ih (dict_set m item.id item) k ?_]
      · exact lookup_dict_set_other m item.id k item hne
      · rw [keys_dict_set]
        rw [if_neg (by simpa using hmem)]
        exact List.mem_append.mpr (Or.inl hk)

/-- Helper: find? by id misses when the id is absent. -/
theorem find?_none_of_not_mem_ids (l : List NDJSONItem) (k : String)
    (h : k ∉ l.map (fun x => x.id)) :
    l.find? (fun x => decide (x.id = k)) = none := by
  induction l with
  | nil => rfl
  | cons x rest ih =>
    simp only [List.map_cons, List.mem_cons, not_or] at h
    rw [List.find?_cons_of_neg _ (by simp; exact fun hh => h.1 hh.symm)]
    exact ih (by simpa using h.2)

/-- Helper: with update_existing, an id among the new items ends up mapped
to the LAST new item carrying it. -/
theorem merge_new_true_lookup_mem (new : List NDJSONItem) :
    ∀ m k, k ∈ new.map (fun x => x.id) →
    lookupId (merge_new true m new) k
      = new.reverse.find? (fun x => decide (x.id = k)) := by
  induction new with
  | nil => intro m k hk; simp at hk
  | cons item rest ih =>
    intro m k hk
    rw [merge_new_cons]
    have hstep : (if !(m.any (fun p => p.1 = item.id)) || true then
          dict_set m item.id item else m) = dict_set m item.id item := by
      simp
    rw [hstep]
    by_cases hkr : k ∈ rest.map (fun x => x.id)
    · rw [ih (dict_set m item.id item) k hkr]
      rw [List.reverse_cons, List.find?_append]
      have : rest.reverse.find? (fun x => decide (x.id = k)) |>.isSome := by
        rw [List.find?_isSome]
        simp only [List.mem_map] at hkr
        obtain ⟨x, hx, hxk⟩ := hkr
        exact ⟨x, by simp [hx], by simp [hxk]⟩
      cases hfind : rest.reverse.find? (fun x => decide (x.id = k)) with
      | none => rw [hfind] at this; simp at this
      | some y => simp
    · have hki : k = item.id := by
        simp only [List.map_cons, List.mem_cons] at hk
        rcases hk with hk | hk
        · exact hk
        · exact absurd hk hkr
      rw [hki] at hkr ⊢
      rw [merge_new_lookup_not_mem true rest (dict_set m item.id item) item.id hkr]
      rw [lookup_dict_set_self]
      rw [List.reverse_cons, List.find?_append]
      rw [find?_none_of_not_mem_ids rest.reverse item.id
        (by simpa using hkr)]
      simp

/-- Helper: folding distinct-id items into the dict appends them in order. -/
theorem foldl_dict_set_eq_append (l : List NDJSONItem) :
    ∀ m : List (String × NDJSONItem),
    (m.map (fun p => p.1) ++ l.map (fun it => it.id)).Nodup →
    l.foldl (fun m item => dict_set m item.id item) m
      = m ++ l.map (fun it => (it.id, it)) := by
  induction l with
  | nil => intro m _; simp
  | cons it rest ih =>
    intro m hm
    have hnotin : it.id ∉ m.map (fun p => p.1) := by
      rw [List.nodup_append] at hm
      intro hmem
      exact hm.2.2 hmem (by simp)
    have hset : dict_set m it.id it = m ++ [(it.id, it)] := by
      unfold dict_set
      rw [if_neg ?_]
      intro hany
      apply hnotin
      simp only [List.any_eq_true, decide_eq_true_eq] at hany
      obtain ⟨p, hp, hpk⟩ := hany
      exact List.mem_map.mpr ⟨p, hp, hpk⟩
    simp only [List.foldl_cons, hset]
    rw [ih (m ++ [(it.id, it)]) ?_]
    · simp
    · simp only [List.map_append, List.map_cons, List.map_nil]
      have hre : (m.map (fun p => p.1) ++ [it.id]) ++ rest.map (fun x => x.id)
          = m.map (fun p => p.1) ++ (it.id :: rest.map (fun x => x.id)) := by
        simp
      rw [hre]
      simpa using hm

/-- Helper: loading a duplicate-free ndjson file yields one entry per line,
in file order, keyed by id. -/
theorem load_existing_eq_map (l : List NDJSONItem)
    (h : (l.map (fun it => it.id)).Nodup) :
    load_existing l = l.map (fun it => (it.id, it)) := by
  have := foldl_dict_set_eq_append l [] (by simpa using h)
  simpa [load_existing] using this

/-- Helper: in the loaded dict of a duplicate-free file, every line is found
under its id. -/
theorem lookup_map_pair_of_mem (l : List NDJSONItem) (it : NDJSONItem)
    (h : (l.map (fun x => x.id)).Nodup) (hmem : it ∈ l) :
    lookupId (l.map (fun x => (x.id, x))) it.id = some it := by
  induction l with
  | nil => simp at hmem
  | cons x rest ih =>
    simp only [List.map_cons, List.nodup_cons] at h
    rcases List.mem_cons.mp hmem with hx | hx
    · subst hx
      unfold lookupId
      simp only [List.map_cons]
      rw [List.find?_cons_of_pos _ (by simp)]
      rfl
    · have hne : ¬x.id = it.id := by
        intro he
        exact h.1 (he ▸ List.mem_map.mpr ⟨it, hx, rfl⟩)
      unfold lookupId
      simp only [List.map_cons]
      rw [List.find?_cons_of_neg _ (by simp [hne])]
      exact ih h.2 hx

/-- C5: after any call to `create_or_extend`, the target ndjson file holds
exactly one entry per resource id; every prior entry whose id is not among
the new items is preserved unchanged; with `update_existing = False` a prior
entry survives even when a new item carries the same id (first-write wins);
with `update_existing = True` the (last) new item with that id overwrites
it. -/
theorem create_or_extend_spec (existing new : List NDJSONItem) (u : Bool)
    (hN : (existing.map (fun it => it.id)).Nodup) :
    ((create_or_extend existing new u).map (fun it => it.id)).Nodup
    ∧ (∀ it ∈ existing, it.id ∉ new.map (fun x => x.id) →
        fileLookup (create_or_extend existing new u) it.id = some it)
    ∧ (u = false → ∀ it ∈ existing,
        fileLookup (create_or_extend existing new u) it.id = some it)
    ∧ (u = true → ∀ k, k ∈ new.map (fun x => x.id) →
        fileLookup (create_or_extend existing new u) k
          = new.reverse.find? (fun x => decide (x.id = k))) := by
  have hload : load_existing existing = existing.map (fun it => (it.id, it)) :=
    load_existing_eq_map existing hN
  have hkeysload : ((load_existing existing).map (fun p => p.1)).Nodup := by
    rw [hload, List.map_map]
    simpa [Function.comp] using hN
  have hwfload : ∀ p ∈ load_existing existing, p.1 = p.2.id := by
    rw [hload]
    intro p hp
    simp only [List.mem_map] at hp
    obtain ⟨x, _, he⟩ := hp
    rw [← he]
  have hwfmerge := wf_merge_new u new (load_existing existing) hwfload
  have hfl : ∀ k, fileLookup (create_or_extend existing new u) k
      = lookupId (merge_new u (load_existing existing) new) k := by
    intro k
    unfold create_or_extend
    exact fileLookup_map_values _ k hwfmerge
  refine ⟨?_, ?_, ?_, ?_⟩
  · have hkeys := nodup_keys_merge_new u new (load_existing existing) hkeysload
    unfold create_or_extend
    rw [List.map_map]
    show ((merge_new u (load_existing existing) new).map (fun p => p.2.id)).Nodup
    have heq : (merge_new u (load_existing existing) new).map (fun p => p.2.id)
        = (merge_new u (load_existing existing) new).map (fun p => p.1) := by
      apply List.map_congr_left
      intro p hp
      exact (hwfmerge p hp).symm
    rw [heq]
    exact hkeys
  · intro it hmem hnot
    rw [hfl, merge_new_lookup_not_mem u new _ it.id hnot, hload]
    exact lookup_map_pair_of_mem existing it hN hmem
  · intro hu it hmem
    subst hu
    rw [hfl, merge_new_false_lookup_mem new _ it.id ?_, hload]
    · exact lookup_map_pair_of_mem existing it hN hmem
    · rw [hload, List.map_map]
      exact List.mem_map.mpr ⟨it, hmem, rfl⟩
  · intro hu k hk
    subst hu
    rw [hfl]
    exact merge_new_true_lookup_mem new _ k hk

/-- C5 witness: the specification applied to a concrete store and batch. -/
theorem create_or_extend_spec_witness :
    ((create_or_extend [⟨"a", "olda"⟩, ⟨"b", "oldb"⟩]
        [⟨"b", "newb"⟩, ⟨"c", "c1"⟩] false).map (fun it => it.id)).Nodup
    ∧ fileLookup (create_or_extend [⟨"a", "olda"⟩, ⟨"b", "oldb"⟩]
        [⟨"b", "newb"⟩, ⟨"c", "c1"⟩] false) "a" = some ⟨"a", "olda"⟩
    ∧ fileLookup (create_or_extend [⟨"a", "olda"⟩, ⟨"b", "oldb"⟩]
        [⟨"b", "newb"⟩, ⟨"c", "c1"⟩] false) "b" = some ⟨"b", "oldb"⟩
    ∧ fileLookup (create_or_extend [⟨"a", "olda"⟩, ⟨"b", "oldb"⟩]
        [⟨"b", "newb"⟩, ⟨"c", "c1"⟩] true) "b"
        = ([⟨"b", "newb"⟩, ⟨"c", "c1"⟩] : List NDJSONItem).reverse.find?
            (fun x => decide (x.id = "b")) := by
  have h0 := create_or_extend_spec [⟨"a", "olda"⟩, ⟨"b", "oldb"⟩]
    [⟨"b", "newb"⟩, ⟨"c", "c1"⟩] false (by decide)
  have h1 := create_or_extend_spec [⟨"a", "olda"⟩, ⟨"b", "oldb"⟩]
    [⟨"b", "newb"⟩, ⟨"c", "c1"⟩] true (by decide)
  exact ⟨h0.1, h0.2.1 ⟨"a", "olda"⟩ (by decide) (by decide),
    h0.2.2.1 rfl ⟨"b", "oldb"⟩ (by decide),
    h1.2.2.2 rfl "b" (by decide)⟩

end CDA2FHIR
